import Mathlib

/-! esp-rgb-led-matrix: pixel addressing engine and MQTT topic handler

A shallow embedding of

* `src/Gfx/LedMatrix.h`, `src/Gfx/LedMatrix.cpp`: the classes `LedMatrixLayout` and
  `LedMatrix` (coordinate mapping, layout selection, brightness, pixel drawing and dimming);
* `lib/MqttApiTopicHandler/src/MqttApiTopicHandler.cpp`: `registerTopics`,
  `unregisterTopics`, the subscription callback and `write` of `MqttApiTopicHandler`.

Machine integers are natural numbers or integers with explicit wrap-around:
`u16` is the conversion to `uint16_t`, `i16` the conversion to `int16_t`.
Arithmetic on 16 bit operands is carried out in `Int` (the C++ integer promotion)
and wrapped where the source stores or returns a 16 bit value.
-/

/-! ## Machine integers -/

/-- Conversion of an integer to `uint16_t` (reduction modulo 2^16). -/
def u16 (i : Int) : Nat := (i % 65536).toNat

/-- Conversion of an integer to `int16_t` (two's complement wrap-around). -/
def i16 (i : Int) : Int := (i + 32768) % 65536 - 32768

/-- Conversion of a natural number to `uint8_t` (reduction modulo 2^8). -/
def u8 (n : Nat) : Nat := n % 256

/-- Saturating clamp of `x` into `[lo, hi]`, used to state the properties of `map`. -/
def clamp (x lo hi : Int) : Int := if x < lo then lo else if hi < x then hi else x

/-! ## Coordinate mapper -/

/-- The sixteen layout classes that `LedMatrix::createLayout` passes as template
argument `T_LAYOUT` to `LedMatrixLayout`. -/
inductive T_LAYOUT where
  | RowMajorLayout
  | RowMajor90Layout
  | RowMajor180Layout
  | RowMajor270Layout
  | RowMajorAlternatingLayout
  | RowMajorAlternating90Layout
  | RowMajorAlternating180Layout
  | RowMajorAlternating270Layout
  | ColumnMajorLayout
  | ColumnMajor90Layout
  | ColumnMajor180Layout
  | ColumnMajor270Layout
  | ColumnMajorAlternatingLayout
  | ColumnMajorAlternating90Layout
  | ColumnMajorAlternating180Layout
  | ColumnMajorAlternating270Layout
  deriving DecidableEq, Repr

/-- Modelled from the spec: the static function `T_LAYOUT::Map(width, height, x, y)` of the
sixteen layout classes. The classes belong to the NeoPixelBus library (`Layouts.h`), which is
not among the sources; the spec only says that each is a pure function from
`(width, height, x, y)` to an index. The bodies below follow the library: all four arguments
and the result are `uint16_t`, the arithmetic is done on promoted integers, and the
alternating layouts keep a `uint16_t index` that is incremented in place. -/
def T_LAYOUT.Map (L : T_LAYOUT) (width height x y : Nat) : Nat :=
  let w : Int := width
  let h : Int := height
  let xi : Int := x
  let yi : Int := y
  match L with
  | .RowMajorLayout => u16 (xi + yi * w)
  | .RowMajor90Layout => u16 ((w - 1 - xi) * h + yi)
  | .RowMajor180Layout => u16 ((w - 1 - xi) + (h - 1 - yi) * w)
  | .RowMajor270Layout => u16 (xi * h + (h - 1 - yi))
  | .ColumnMajorLayout => u16 (xi * h + yi)
  | .ColumnMajor90Layout => u16 ((w - 1 - xi) + yi * w)
  | .ColumnMajor180Layout => u16 ((w - 1 - xi) * h + (h - 1 - yi))
  | .ColumnMajor270Layout => u16 (xi + (h - 1 - yi) * w)
  | .RowMajorAlternatingLayout =>
      let index : Int := u16 (yi * w)
      if y % 2 = 1 then u16 (index + ((w - 1) - xi)) else u16 (index + xi)
  | .RowMajorAlternating90Layout =>
      let mx : Nat := u16 ((w - 1) - xi)
      let index : Int := u16 (mx * h)
      if mx % 2 = 1 then u16 (index + ((h - 1) - yi)) else u16 (index + yi)
  | .RowMajorAlternating180Layout =>
      let my : Nat := u16 ((h - 1) - yi)
      let index : Int := u16 (my * w)
      if my % 2 = 1 then u16 (index + xi) else u16 (index + ((w - 1) - xi))
  | .RowMajorAlternating270Layout =>
      let index : Int := u16 (xi * h)
      if x % 2 = 1 then u16 (index + yi) else u16 (index + ((h - 1) - yi))
  | .ColumnMajorAlternatingLayout =>
      let index : Int := u16 (xi * h)
      if x % 2 = 1 then u16 (index + ((h - 1) - yi)) else u16 (index + yi)
  | .ColumnMajorAlternating90Layout =>
      let index : Int := u16 (yi * w)
      if y % 2 = 1 then u16 (index + xi) else u16 (index + ((w - 1) - xi))
  | .ColumnMajorAlternating180Layout =>
      let mx : Nat := u16 ((w - 1) - xi)
      let index : Int := u16 (mx * h)
      if mx % 2 = 1 then u16 (index + yi) else u16 (index + ((h - 1) - yi))
  | .ColumnMajorAlternating270Layout =>
      let my : Nat := u16 ((h - 1) - yi)
      let index : Int := u16 (my * w)
      if my % 2 = 1 then u16 (index + ((w - 1) - xi)) else u16 (index + xi)

/-! ## Layout indices as `major * stride + minor`

Auxiliary functions for the proofs about `T_LAYOUT.Map`. -/

/-- The slow coordinate of a layout: the number of complete strides before the pixel. -/
def T_LAYOUT.major (L : T_LAYOUT) (w h x y : Int) : Int :=
  match L with
  | .RowMajorLayout | .ColumnMajor90Layout
  | .RowMajorAlternatingLayout | .ColumnMajorAlternating90Layout => y
  | .RowMajor90Layout | .ColumnMajor180Layout
  | .RowMajorAlternating90Layout | .ColumnMajorAlternating180Layout => w - 1 - x
  | .RowMajor180Layout | .ColumnMajor270Layout
  | .RowMajorAlternating180Layout | .ColumnMajorAlternating270Layout => h - 1 - y
  | .RowMajor270Layout | .ColumnMajorLayout
  | .RowMajorAlternating270Layout | .ColumnMajorAlternatingLayout => x

/-- Whether the strides of a layout run along the x axis (stride `width`). -/
def T_LAYOUT.alongX (L : T_LAYOUT) : Bool :=
  match L with
  | .RowMajorLayout | .ColumnMajor90Layout
  | .RowMajorAlternatingLayout | .ColumnMajorAlternating90Layout
  | .RowMajor180Layout | .ColumnMajor270Layout
  | .RowMajorAlternating180Layout | .ColumnMajorAlternating270Layout => true
  | _ => false

/-- The length of one stride of a layout. -/
def T_LAYOUT.stride (L : T_LAYOUT) (w h : Int) : Int := if L.alongX then w else h

/-- The number of strides of a layout. -/
def T_LAYOUT.strides (L : T_LAYOUT) (w h : Int) : Int := if L.alongX then h else w

/-- The fast coordinate of a layout: the position of the pixel within its stride. -/
def T_LAYOUT.minor (L : T_LAYOUT) (w h x y : Int) : Int :=
  match L with
  | .RowMajorLayout => x
  | .RowMajor90Layout => y
  | .RowMajor180Layout => w - 1 - x
  | .RowMajor270Layout => h - 1 - y
  | .ColumnMajorLayout => y
  | .ColumnMajor90Layout => w - 1 - x
  | .ColumnMajor180Layout => h - 1 - y
  | .ColumnMajor270Layout => x
  | .RowMajorAlternatingLayout => if y % 2 = 1 then w - 1 - x else x
  | .RowMajorAlternating90Layout => if (w - 1 - x) % 2 = 1 then h - 1 - y else y
  | .RowMajorAlternating180Layout => if (h - 1 - y) % 2 = 1 then x else w - 1 - x
  | .RowMajorAlternating270Layout => if x % 2 = 1 then y else h - 1 - y
  | .ColumnMajorAlternatingLayout => if x % 2 = 1 then h - 1 - y else y
  | .ColumnMajorAlternating90Layout => if y % 2 = 1 then x else w - 1 - x
  | .ColumnMajorAlternating180Layout => if (w - 1 - x) % 2 = 1 then y else h - 1 - y
  | .ColumnMajorAlternating270Layout => if (h - 1 - y) % 2 = 1 then w - 1 - x else x

/-- The class template `LedMatrixLayout<T_LAYOUT>`: the layout class together with the
members `m_width` and `m_height` of its base class `LedMatrixTopology` (both `uint16_t`). -/
structure LedMatrixLayout where
  layout : T_LAYOUT
  m_width : Nat
  m_height : Nat
  deriving DecidableEq, Repr

namespace LedMatrixLayout

/-- The method `LedMatrixLayout::map(int16_t x, int16_t y)`: each coordinate is limited to the
matrix, stored back into the `int16_t` parameter, and handed to `T_LAYOUT::Map`, whose
parameters are `uint16_t`. -/
def map (l : LedMatrixLayout) (x y : Int) : Nat :=
  let x1 : Int := if x ≥ (l.m_width : Int) then i16 ((l.m_width : Int) - 1)
                  else if x < 0 then 0 else x
  let y1 : Int := if y ≥ (l.m_height : Int) then i16 ((l.m_height : Int) - 1)
                  else if y < 0 then 0 else y
  l.layout.Map l.m_width l.m_height (u16 x1) (u16 y1)

/-- The method `LedMatrixLayout::mapProbe(int16_t x, int16_t y)`: outside the matrix the
product `m_width * m_height`, converted to the `uint16_t` return type, is returned. -/
def mapProbe (l : LedMatrixLayout) (x y : Int) : Nat :=
  if x < 0 ∨ x ≥ (l.m_width : Int) ∨ y < 0 ∨ y ≥ (l.m_height : Int) then
    u16 ((l.m_width : Int) * (l.m_height : Int))
  else
    l.layout.Map l.m_width l.m_height (u16 x) (u16 y)

end LedMatrixLayout

/-! ## LED matrix -/

/-- The enumeration `LedMatrix::Topology`, as the integer value of the enumerator. -/
abbrev Topology := Nat

abbrev TOPOLOGY_ROW_MAJOR : Topology := 0
abbrev TOPOLOGY_ROW_MAJOR_90 : Topology := 1
abbrev TOPOLOGY_ROW_MAJOR_180 : Topology := 2
abbrev TOPOLOGY_ROW_MAJOR_270 : Topology := 3
abbrev TOPOLOGY_ROW_MAJOR_ALTERNATING : Topology := 4
abbrev TOPOLOGY_ROW_MAJOR_ALTERNATING_90 : Topology := 5
abbrev TOPOLOGY_ROW_MAJOR_ALTERNATING_180 : Topology := 6
abbrev TOPOLOGY_ROW_MAJOR_ALTERNATING_270 : Topology := 7
abbrev TOPOLOGY_COLUMN_MAJOR : Topology := 8
abbrev TOPOLOGY_COLUMN_MAJOR_90 : Topology := 9
abbrev TOPOLOGY_COLUMN_MAJOR_180 : Topology := 10
abbrev TOPOLOGY_COLUMN_MAJOR_270 : Topology := 11
abbrev TOPOLOGY_COLUMN_MAJOR_ALTERNATING : Topology := 12
abbrev TOPOLOGY_COLUMN_MAJOR_ALTERNATING_90 : Topology := 13
abbrev TOPOLOGY_COLUMN_MAJOR_ALTERNATING_180 : Topology := 14
abbrev TOPOLOGY_COLUMN_MAJOR_ALTERNATING_270 : Topology := 15
abbrev TOPOLOGY_MAX : Topology := 16

/-- The layout class that belongs to a topology identifier, as paired in the `case` labels of
`LedMatrix::createLayout`; `none` outside the enumerated range. Used to state properties. -/
def layoutOfTopology (t : Topology) : Option T_LAYOUT :=
  match t with
  | 0 => some .RowMajorLayout
  | 1 => some .RowMajor90Layout
  | 2 => some .RowMajor180Layout
  | 3 => some .RowMajor270Layout
  | 4 => some .RowMajorAlternatingLayout
  | 5 => some .RowMajorAlternating90Layout
  | 6 => some .RowMajorAlternating180Layout
  | 7 => some .RowMajorAlternating270Layout
  | 8 => some .ColumnMajorLayout
  | 9 => some .ColumnMajor90Layout
  | 10 => some .ColumnMajor180Layout
  | 11 => some .ColumnMajor270Layout
  | 12 => some .ColumnMajorAlternatingLayout
  | 13 => some .ColumnMajorAlternating90Layout
  | 14 => some .ColumnMajorAlternating180Layout
  | 15 => some .ColumnMajorAlternating270Layout
  | _ => none

/-- A colour of the driver (`RgbColor` of the NeoPixelBus library): three 8 bit channels. -/
structure RgbColor where
  R : Nat
  G : Nat
  B : Nat
  deriving DecidableEq, Repr

/-- The conversion of a `Color` of the graphics library to the driver colour in
`drawPixel`: `static_cast<uint32_t>(color)` is the RGB888 value, from which the `HtmlColor`
and then the `RgbColor` handed to the strip are built. -/
def RgbColor.ofColor (color : Nat) : RgbColor :=
  ⟨(color / 65536) % 256, (color / 256) % 256, color % 256⟩

/-- The conversion of a driver colour to a `Color` of the graphics library in `getColor`:
the `HtmlColor` built from the `RgbColor` holds the RGB888 value
`(R << 16) | (G << 8) | B`, from which the `Color` is constructed. -/
def RgbColor.toColor (c : RgbColor) : Nat :=
  (c.R <<< 16) ||| (c.G <<< 8) ||| c.B

/-- Modelled from the spec: the physical driver `m_strip` (`NeoPixelBrightnessBus` of the
NeoPixelBus library, not among the sources). Following the spec's driver interface
`setPixelColor(index, color)` / `getPixelColor(index) → color` / `setBrightness(scaledValue)`,
the driver is the stored colour of every pixel index and the brightness it was last given. -/
structure Strip where
  pixels : Nat → RgbColor
  brightness : Nat

/-- Modelled from the spec: `getPixelColor(index)` of the physical driver reads the stored
colour of the pixel. -/
def Strip.GetPixelColor (s : Strip) (index : Nat) : RgbColor := s.pixels index

/-- Modelled from the spec: `setPixelColor(index, color)` of the physical driver replaces the
stored colour of the pixel `index` and of no other pixel. -/
def Strip.SetPixelColor (s : Strip) (index : Nat) (color : RgbColor) : Strip :=
  { s with pixels := fun i => if i = index then color else s.pixels i }

/-- Modelled from the spec: `setBrightness(scaledValue)` of the physical driver stores the
value it is given. -/
def Strip.SetBrightness (s : Strip) (brightness : Nat) : Strip :=
  { s with brightness := brightness }

/-- A strip on which every pixel is black, the content after `clear()`, at full
brightness. -/
def Strip.black : Strip := ⟨fun _ => ⟨0, 0, 0⟩, 255⟩

/-- The constants of `Board::LedMatrix` (declared in `Board.h`, not among the sources). -/
structure Board where
  width : Nat
  height : Nat

/-- The constants `supplyCurrentMax` and `maxCurrentPerLed` of `Board::LedMatrix` (declared
in `Board.h`, not among the sources), both in mA. -/
structure BoardCurrent where
  supplyCurrentMax : Nat
  maxCurrentPerLed : Nat

/-- Modelled from the spec: the method `RgbColor::Dim(ratio)` of the NeoPixelBus library, not
among the sources. The spec says that dimming scales a colour toward black, with the colour
unchanged at one end and black at the other; the body follows the library, which computes
every 8 bit channel as `(value * (ratio + 1)) >> 8`. -/
def RgbColor.Dim (c : RgbColor) (ratio : Nat) : RgbColor :=
  ⟨u8 ((c.R * (ratio + 1)) / 256), u8 ((c.G * (ratio + 1)) / 256),
   u8 ((c.B * (ratio + 1)) / 256)⟩

/-- The data members of the class `LedMatrix`; `m_width` and `m_height` are the members of the
base class `IGfx`. A null pointer `m_topo` is `none`. -/
structure LedMatrix where
  m_width : Nat
  m_height : Nat
  m_topology : Topology
  m_strip : Strip
  m_topo : Option LedMatrixLayout

namespace LedMatrix

/-- The method `LedMatrix::createLayout(Topology topo)`: the old mapper is deleted, then a
new one is created in a `switch` over the member `m_topology`; the parameter `topo` is not
read and `m_topology` is not assigned. -/
def createLayout (s : LedMatrix) (_topo : Topology) : LedMatrix :=
  let s1 : LedMatrix := match s.m_topo with
    | some _ => { s with m_topo := none }
    | none => s
  let mk (L : T_LAYOUT) : LedMatrix :=
    { s1 with m_topo := some ⟨L, s1.m_width, s1.m_height⟩ }
  match s1.m_topology with
  | 0 => mk .RowMajorLayout
  | 1 => mk .RowMajor90Layout
  | 2 => mk .RowMajor180Layout
  | 3 => mk .RowMajor270Layout
  | 4 => mk .RowMajorAlternatingLayout
  | 5 => mk .RowMajorAlternating90Layout
  | 6 => mk .RowMajorAlternating180Layout
  | 7 => mk .RowMajorAlternating270Layout
  | 8 => mk .ColumnMajorLayout
  | 9 => mk .ColumnMajor90Layout
  | 10 => mk .ColumnMajor180Layout
  | 11 => mk .ColumnMajor270Layout
  | 12 => mk .ColumnMajorAlternatingLayout
  | 13 => mk .ColumnMajorAlternating90Layout
  | 14 => mk .ColumnMajorAlternating180Layout
  | 15 => mk .ColumnMajorAlternating270Layout
  | _ => s1

/-- The constructor `LedMatrix::LedMatrix()`: the base class gets the board's width and
height, the topology is `TOPOLOGY_COLUMN_MAJOR_ALTERNATING`, the mapper pointer is null, and
the body calls `createLayout(m_topology)`. The strip's initial content is a parameter. -/
def construct (b : Board) (strip : Strip) : LedMatrix :=
  createLayout
    { m_width := b.width, m_height := b.height,
      m_topology := TOPOLOGY_COLUMN_MAJOR_ALTERNATING,
      m_strip := strip, m_topo := none }
    TOPOLOGY_COLUMN_MAJOR_ALTERNATING

/-- The method `LedMatrix::getLayout()`. -/
def getLayout (s : LedMatrix) : Topology := s.m_topology

/-- The method `LedMatrix::setLayout(Topology topo)`. -/
def setLayout (s : LedMatrix) (topo : Topology) : LedMatrix :=
  if TOPOLOGY_MAX > topo then createLayout s topo else s

/-- The method `LedMatrix::setBrightness(uint8_t brightness)`: the quotient is stored in the
`uint8_t` constant `SAFE_BRIGHTNESS` and handed to the strip. The types of the board
constants are not known, the quotient itself is computed without wrap-around. -/
def setBrightness (b : Board) (c : BoardCurrent) (s : LedMatrix) (brightness : Nat) :
    LedMatrix :=
  let SAFE_BRIGHTNESS : Nat :=
    u8 ((c.supplyCurrentMax * brightness) / (c.maxCurrentPerLed * b.width * b.height))
  { s with m_strip := s.m_strip.SetBrightness SAFE_BRIGHTNESS }

/-- The method `LedMatrix::getColor(int16_t x, int16_t y)`: the RGB888 value of the colour
the strip holds at `m_topo->map(x, y)`, and `ColorDef::BLACK` when the mapper pointer is
null. -/
def getColor (s : LedMatrix) (x y : Int) : Nat :=
  match s.m_topo with
  | some topo => (s.m_strip.GetPixelColor (topo.map x y)).toColor
  | none => 0

/-- The method `LedMatrix::drawPixel(int16_t x, int16_t y, const Color& color)`; `color` is
the RGB888 value of the colour. -/
def drawPixel (b : Board) (s : LedMatrix) (x y : Int) (color : Nat) : LedMatrix :=
  match s.m_topo with
  | some topo =>
      if 0 ≤ x ∧ (b.width : Int) > x ∧ 0 ≤ y ∧ (b.height : Int) > y then
        { s with m_strip := s.m_strip.SetPixelColor (topo.map x y) (RgbColor.ofColor color) }
      else s
  | none => s

/-- The method `LedMatrix::dimPixel(int16_t x, int16_t y, uint8_t ratio)`. The operation
`RgbColor::Dim` of the driver library is the parameter `Dim`; it receives
`UINT8_MAX - ratio`. -/
def dimPixel (Dim : RgbColor → Nat → RgbColor) (b : Board) (s : LedMatrix) (x y : Int)
    (ratio : Nat) : LedMatrix :=
  match s.m_topo with
  | some topo =>
      if 0 ≤ x ∧ (b.width : Int) > x ∧ 0 ≤ y ∧ (b.height : Int) > y then
        let rgbColor := Dim (s.m_strip.GetPixelColor (topo.map x y)) (255 - ratio)
        { s with m_strip := s.m_strip.SetPixelColor (topo.map x y) rgbColor }
      else s
  | none => s

/-- The state after the constructor and a sequence of `setLayout` calls with the given
arguments. -/
def afterSetLayouts (b : Board) (strip : Strip) (topos : List Topology) : LedMatrix :=
  topos.foldl setLayout (construct b strip)

end LedMatrix

/-! ## MQTT topic handler -/

/-- A JSON value as held by a `DynamicJsonDocument` of the ArduinoJson library. An object is
the ordered list of its members. The byte capacity of the document is not part of the model:
a payload that does not fit is among those the deserializer refuses. -/
inductive JsonVariant where
  | null
  | bool (b : Bool)
  | number (n : Int)
  | string (s : String)
  | array (elems : List JsonVariant)
  | object (members : List (String × JsonVariant))

/-- The members of an object, as handed over by `jsonDoc.as<JsonObject>()`. -/
abbrev JsonObject := List (String × JsonVariant)

namespace JsonVariant

/-- The test `variant.is<String>()`. -/
def isString : JsonVariant → Bool
  | .string _ => true
  | _ => false

/-- The conversion `variant.as<String>()` of a string variant. -/
def asString : JsonVariant → String
  | .string s => s
  | _ => ""

/-- The member access `jsonDoc[key]`: the first member with that key when the document is an
object, otherwise an unbound (null) variant. -/
def getMember (doc : JsonVariant) (key : String) : JsonVariant :=
  match doc with
  | .object members =>
      match members.find? (fun kv => kv.1 == key) with
      | some kv => kv.2
      | none => .null
  | _ => .null

/-- Removal of the first member with the given key from a member list. -/
def eraseKey (key : String) : JsonObject → JsonObject
  | [] => []
  | kv :: rest => if kv.1 == key then rest else kv :: eraseKey key rest

/-- Replacement of the value of the first member with the given key, or a new member at
the end when the key is absent. -/
def setKey (key : String) (value : JsonVariant) : JsonObject → JsonObject
  | [] => [(key, value)]
  | kv :: rest => if kv.1 == key then (key, value) :: rest else kv :: setKey key value rest

/-- The call `jsonDoc.remove(key)`. -/
def remove (doc : JsonVariant) (key : String) : JsonVariant :=
  match doc with
  | .object members => .object (eraseKey key members)
  | other => other

/-- The assignment `jsonDoc[key] = value` with a string value. -/
def setMember (doc : JsonVariant) (key : String) (value : String) : JsonVariant :=
  match doc with
  | .object members => .object (setKey key (.string value) members)
  | other => other

/-- The conversion `jsonDoc.as<JsonObject>()`: a null object unless the document is an
object. -/
def asObject : JsonVariant → Option JsonObject
  | .object members => some members
  | _ => none

end JsonVariant

/-- The plugin behind `IPluginMaintenance*`, as far as `write` uses it: the answer of
`isUploadAccepted(topic, fileName, dstFullPath)` is the returned flag together with the
destination path written to `dstFullPath`; `setTopic` returns whether the plugin took the
object. For `registerTopics` and `unregisterTopics` the plugin has a UID, an alias and the
list of topic strings that `getTopics` puts into the JSON array. -/
structure IPluginMaintenance where
  isUploadAccepted : String → String → Bool × String
  setTopic : String → Option JsonObject → Bool
  getUID : Nat
  getAlias : String
  getTopics : List String

/-- The MQTT service behind `MqttService::getInstance()`, as far as `registerTopic` depends
on it: `subscribe n topicUri` is the value returned by the subscription of `topicUri` when
`n` subscriptions were made before it during the same `registerTopics`. -/
structure MqttService where
  subscribe : Nat → String → Bool

/-- The environment of `MqttApiTopicHandler::write` outside the sources: the ArduinoJson
deserializer (`none` for every result other than `DeserializationError::Ok`), the outcome of
`new(std::nothrow)`, the base64 decoder of `libb64` and whether `FILESYSTEM.open` yields a
valid file. Of the decoder, `base64_decode_chars` gives the decoded bytes, whose number is
the returned length, and `base64_decode_written` the number of bytes of the output buffer
the decoder writes, whatever the size of the buffer it is given. -/
structure Environment where
  deserializeJson : List Nat → Option JsonVariant
  allocSucceeds : Nat → Bool
  base64_decode_expected_len : Nat → Nat
  base64_decode_chars : String → List Nat
  base64_decode_written : String → Nat
  openSucceeds : String → Bool

/-- The calls the topic handler makes to its collaborators, in program order.
`base64_decode_chars` carries the text to decode and the number of bytes of the buffer it is
given. `subscribe` carries the URI and the topic captured by the callback it registers.
`undefinedBehaviour` is no call: it ends a list at the point from which the language defines
no behaviour of the source, and nothing is said about what the program does from there. -/
inductive Call where
  | logWarning (text : String)
  | logError (text : String)
  | isUploadAccepted (topic fileName : String)
  | base64_decode_chars (code_in : String) (bufferBytes : Nat)
  | fsOpen (path mode : String)
  | fdWrite (path : String) (bytes : List Nat)
  | fdClose (path : String)
  | setTopic (topic : String) (object : Option JsonObject)
  | subscribe (topicUri topic : String)
  | unsubscribe (topicUri : String)
  | undefinedBehaviour

namespace Call

/-- Whether the call is `plugin->setTopic`. -/
def isSetTopic : Call → Bool
  | .setTopic _ _ => true
  | _ => false

/-- Whether the call is `plugin->isUploadAccepted`. -/
def isUploadQuery : Call → Bool
  | .isUploadAccepted _ _ => true
  | _ => false

/-- Whether the call touches the file system. -/
def isFileAccess : Call → Bool
  | .fsOpen _ _ => true
  | .fdWrite _ _ => true
  | .fdClose _ => true
  | _ => false

/-- The URI of a `subscribe` call. -/
def subscribedUri : Call → Option String
  | .subscribe topicUri _ => some topicUri
  | _ => none

/-- The URI of an `unsubscribe` call. -/
def unsubscribedUri : Call → Option String
  | .unsubscribe topicUri => some topicUri
  | _ => none

/-- The bytes of an `fdWrite` call. -/
def writtenBytes : Call → Option (List Nat)
  | .fdWrite _ bytes => some bytes
  | _ => none

/-- The buffer size of a `base64_decode_chars` call. -/
def decoderBufferSize : Call → Option Nat
  | .base64_decode_chars _ bufferBytes => some bufferBytes
  | _ => none

end Call

namespace MqttApiTopicHandler

/-- The final statement of the `else` branch of `write`: the document is handed to
`plugin->setTopic` as a `JsonObject`, a refusal is logged. -/
def forward (plugin : IPluginMaintenance) (topic : String) (jsonDoc : JsonVariant) :
    List Call :=
  Call.setTopic topic jsonDoc.asObject ::
    (if plugin.setTopic topic jsonDoc.asObject = false then
      [Call.logWarning "Plugin %u rejected payload."] else [])

/-- The allocation `new(std::nothrow) char(size)` in `write`: a single `char` that is
initialised with the value `size`. The buffer has one byte, whatever `size` is. The later
`delete[] buffer` is taken to release it. -/
def decodeBufferBytes (_size : Nat) : Nat := 1

/-- The method `MqttApiTopicHandler::write(plugin, topic, payload, size)`, as the list of calls
it makes. The decoder writes its output to the buffer whatever the size of the buffer. When
it writes more bytes than the buffer has, or the decoded bytes to be handed to the file are
more than the buffer has, the behaviour of the source is undefined from the call of the
decoder on, and the list ends there with `undefinedBehaviour`. -/
def write (env : Environment) (plugin : IPluginMaintenance) (topic : String)
    (payload : List Nat) : List Call :=
  match env.deserializeJson payload with
  | none => [Call.logWarning "Received invalid payload."]
  | some jsonDoc =>
      let jsonFileName := jsonDoc.getMember "fileName"
      let jsonFileBase64 := jsonDoc.getMember "file"
      if jsonFileName.isString = true ∧ jsonFileBase64.isString = true then
        let answer := plugin.isUploadAccepted topic jsonFileName.asString
        let dstFullPath := answer.2
        if answer.1 = false then
          Call.isUploadAccepted topic jsonFileName.asString ::
            Call.logWarning "[%s][%u] Upload not supported." ::
            forward plugin topic jsonDoc
        else
          let fileBase64 := jsonFileBase64.asString
          let size := env.base64_decode_expected_len fileBase64.length
          if env.allocSucceeds size = true then
            let decoded := env.base64_decode_chars fileBase64
            if decoded.length ≤ decodeBufferBytes size ∧
                env.base64_decode_written fileBase64 ≤ decodeBufferBytes size then
              let fileCalls : List Call :=
                if env.openSucceeds dstFullPath = false then
                  [Call.fsOpen dstFullPath "w", Call.logError "Couldn't create file: %s"]
                else
                  [Call.fsOpen dstFullPath "w", Call.fdWrite dstFullPath decoded,
                   Call.fdClose dstFullPath]
              let jsonDoc1 := (jsonDoc.remove "fileName").remove "file"
              let jsonDoc2 := jsonDoc1.setMember "fullPath" dstFullPath
              Call.isUploadAccepted topic jsonFileName.asString ::
                Call.base64_decode_chars fileBase64 (decodeBufferBytes size) ::
                (fileCalls ++ forward plugin topic jsonDoc2)
            else
              [Call.isUploadAccepted topic jsonFileName.asString,
               Call.base64_decode_chars fileBase64 (decodeBufferBytes size),
               Call.undefinedBehaviour]
          else
            Call.isUploadAccepted topic jsonFileName.asString ::
              forward plugin topic jsonDoc
      else
        forward plugin topic jsonDoc

/-- The test `topicUri.endsWith(topic)` of the Arduino `String` class: the last characters of
`topicUri` are those of `topic`. -/
def endsWith (topicUri topic : String) : Bool := topic.data.isSuffixOf topicUri.data

/-- The callback that `registerTopic` hands to `subscribe`: a closure over the plugin and the
topic, called by the MQTT service with the URI and the payload of a message. -/
def subscriptionCallback (env : Environment) (plugin : IPluginMaintenance) (topic : String)
    (topicUri : String) (payload : List Nat) : List Call :=
  if endsWith topicUri topic = true then write env plugin topic payload else []

/-- The method `MqttApiTopicHandler::getBaseUriByUid(uint16_t uid)`. -/
def getBaseUriByUid (uid : Nat) : String :=
  "" ++ "/display" ++ "/uid/" ++ toString (uid % 65536)

/-- The method `MqttApiTopicHandler::getBaseUriByAlias(const String& alias)`. -/
def getBaseUriByAlias (aliasName : String) : String :=
  "" ++ "/display" ++ "/alias/" ++ aliasName

/-- The method `MqttApiTopicHandler::registerTopic(baseUri, plugin, topic)`; `n` is the number
of subscriptions made before. -/
def registerTopic (mqttService : MqttService) (n : Nat) (baseUri : String)
    (plugin : Option IPluginMaintenance) (topic : String) : List Call :=
  match plugin with
  | none => []
  | some _ =>
      let topicUri := baseUri ++ topic
      if mqttService.subscribe n topicUri = false then
        [Call.subscribe topicUri topic, Call.logWarning "Couldn't subscribe %s."]
      else
        [Call.subscribe topicUri topic]

/-- The method `MqttApiTopicHandler::unregisterTopic(baseUri, topic)`. -/
def unregisterTopic (baseUri topic : String) : List Call :=
  let topicUri := baseUri ++ topic
  [Call.unsubscribe topicUri]

/-- The loop `for (JsonVariantConst topic : topics)` of `registerTopics`; `n` is the number of
subscriptions made before. -/
def registerTopicsLoop (mqttService : MqttService) (plugin : IPluginMaintenance)
    (baseUriByUid baseUriByAlias : String) : Nat → List String → List Call
  | _, [] => []
  | n, topic :: rest =>
      if baseUriByAlias.isEmpty = false then
        registerTopic mqttService n baseUriByUid (some plugin) topic ++
          (registerTopic mqttService (n + 1) baseUriByAlias (some plugin) topic ++
            registerTopicsLoop mqttService plugin baseUriByUid baseUriByAlias (n + 2) rest)
      else
        registerTopic mqttService n baseUriByUid (some plugin) topic ++
          registerTopicsLoop mqttService plugin baseUriByUid baseUriByAlias (n + 1) rest

/-- The method `MqttApiTopicHandler::registerTopics(plugin)`; a null pointer is `none`. -/
def registerTopics (mqttService : MqttService) (plugin : Option IPluginMaintenance) :
    List Call :=
  match plugin with
  | none => []
  | some p =>
      let topics := p.getTopics
      if 0 < topics.length then
        let baseUriByUid := getBaseUriByUid p.getUID
        let baseUriByAlias :=
          if p.getAlias.isEmpty = false then getBaseUriByAlias p.getAlias else ""
        registerTopicsLoop mqttService p baseUriByUid baseUriByAlias 0 topics
      else []

/-- The loop `for (JsonVariantConst topic : topics)` of `unregisterTopics`. -/
def unregisterTopicsLoop (baseUriByUid baseUriByAlias : String) : List String → List Call
  | [] => []
  | topic :: rest =>
      if baseUriByAlias.isEmpty = false then
        unregisterTopic baseUriByUid topic ++
          (unregisterTopic baseUriByAlias topic ++
            unregisterTopicsLoop baseUriByUid baseUriByAlias rest)
      else
        unregisterTopic baseUriByUid topic ++
          unregisterTopicsLoop baseUriByUid baseUriByAlias rest

/-- The method `MqttApiTopicHandler::unregisterTopics(plugin)`; a null pointer is `none`. -/
def unregisterTopics (plugin : Option IPluginMaintenance) : List Call :=
  match plugin with
  | none => []
  | some p =>
      let topics := p.getTopics
      if 0 < topics.length then
        let baseUriByUid := getBaseUriByUid p.getUID
        let baseUriByAlias :=
          if p.getAlias.isEmpty = false then getBaseUriByAlias p.getAlias else ""
        unregisterTopicsLoop baseUriByUid baseUriByAlias topics
      else []

/-- The URIs under which a plugin with the given UID, alias and topics is reachable, as the
spec lists them: for every topic `/display/uid/<uid><topic>` and, when the alias is not
empty, `/display/alias/<alias><topic>`. -/
def specTopicUris (uid : Nat) (aliasName : String) : List String → List String
  | [] => []
  | topic :: rest =>
      if aliasName = "" then
        ("/display/uid/" ++ toString uid ++ topic) :: specTopicUris uid aliasName rest
      else
        ("/display/uid/" ++ toString uid ++ topic) ::
          ("/display/alias/" ++ aliasName ++ topic) :: specTopicUris uid aliasName rest

end MqttApiTopicHandler

/-! ## Example collaborators -/

/-- The bytes of the payload `{"text":"hello"}`. -/
def payloadText : List Nat :=
  [123, 34, 116, 101, 120, 116, 34, 58, 34, 104, 101, 108, 108, 111, 34, 125]

/-- The bytes of the payload `{"fileName":"a.bmp","file":"AQID"}`; `AQID` is the base64
encoding of the bytes 01 02 03. -/
def payloadUpload : List Nat :=
  [123, 34, 102, 105, 108, 101, 78, 97, 109, 101, 34, 58, 34, 97, 46, 98, 109, 112, 34, 44,
   34, 102, 105, 108, 101, 34, 58, 34, 65, 81, 73, 68, 34, 125]

/-- The bytes of the payload `{"fileName":"a.bmp","file":""}`, an upload of an empty
file. -/
def payloadUploadEmpty : List Nat :=
  [123, 34, 102, 105, 108, 101, 78, 97, 109, 101, 34, 58, 34, 97, 46, 98, 109, 112, 34, 44,
   34, 102, 105, 108, 101, 34, 58, 34, 34, 125]

/-- The bytes of the payload `[1]`, a JSON document whose top level is an array. -/
def payloadArray : List Nat := [91, 49, 93]

/-- The document ArduinoJson builds from `payloadText`. -/
def docText : JsonObject := [("text", .string "hello")]

/-- The document ArduinoJson builds from `payloadUpload`. -/
def docUpload : JsonObject := [("fileName", .string "a.bmp"), ("file", .string "AQID")]

/-- The document ArduinoJson builds from `payloadUploadEmpty`. -/
def docUploadEmpty : JsonObject := [("fileName", .string "a.bmp"), ("file", .string "")]

/-- An environment for the examples: the four payloads above are deserialized to their
documents and everything else is refused; `AQID` decodes to the bytes 01 02 03, for which
the decoder writes four bytes, the three and a terminating zero; every other string, the
empty one among them, decodes to nothing, and the decoder writes one byte; whether the
allocation and the opening of the file succeed is given by the two flags. -/
def exampleEnvironment (allocOk openOk : Bool) : Environment where
  deserializeJson := fun payload =>
    if payload = payloadText then some (.object docText)
    else if payload = payloadUpload then some (.object docUpload)
    else if payload = payloadArray then some (.array [.number 1])
    else if payload = payloadUploadEmpty then some (.object docUploadEmpty)
    else none
  allocSucceeds := fun _ => allocOk
  base64_decode_expected_len := fun n => n * 3 / 4
  base64_decode_chars := fun s => if s = "AQID" then [1, 2, 3] else []
  base64_decode_written := fun s => if s = "AQID" then 4 else 1
  openSucceeds := fun _ => openOk

/-- A plugin that takes every object and answers every upload request with the given flag
and the destination `/img/` followed by the file name. -/
def examplePlugin (accept : Bool) : IPluginMaintenance where
  isUploadAccepted := fun _ fileName => (accept, "/img/" ++ fileName)
  setTopic := fun _ _ => true
  getUID := 7
  getAlias := "lamp"
  getTopics := ["/text", "/bitmap"]

/-- The example plugin without an alias. -/
def examplePluginNoAlias : IPluginMaintenance :=
  { examplePlugin true with getAlias := "" }

/-- An MQTT service that refuses every second subscription. -/
def exampleMqttService : MqttService where
  subscribe := fun n _ => n % 2 == 0

/-! ## Arithmetic of the 16 bit conversions -/

theorem u16_of_lt (i : Int) (h0 : 0 ≤ i) (h1 : i < 65536) : u16 i = i.toNat := by
  unfold u16; omega

theorem u16_natCast (n : Nat) (h : n < 65536) : u16 (n : Int) = n := by
  unfold u16; omega

/-- The coordinate that `map` hands to `T_LAYOUT::Map` is the clamped coordinate. -/
theorem map_axis (w : Nat) (x : Int) (hw : 1 ≤ w) (hw2 : w < 65536)
    (hx : -32768 ≤ x) (hx2 : x ≤ 32767) :
    u16 (if x ≥ (w : Int) then i16 ((w : Int) - 1) else if x < 0 then 0 else x)
      = (clamp x 0 ((w : Int) - 1)).toNat := by
  unfold u16 i16 clamp
  split_ifs <;> omega

theorem clamp_idem (x : Int) (w : Nat) (hw : 1 ≤ w) :
    clamp (clamp x 0 ((w : Int) - 1)) 0 ((w : Int) - 1) = clamp x 0 ((w : Int) - 1) := by
  unfold clamp
  split_ifs <;> omega

theorem clamp_range (x : Int) (w : Nat) (hw : 1 ≤ w) :
    0 ≤ clamp x 0 ((w : Int) - 1) ∧ clamp x 0 ((w : Int) - 1) < w := by
  unfold clamp
  split_ifs <;> omega

theorem clamp_le_int16 (x : Int) (w : Nat) (hx : x ≤ 32767) :
    clamp x 0 ((w : Int) - 1) ≤ 32767 := by
  unfold clamp
  split_ifs <;> omega

/-! ## The layouts as `major * stride + minor` -/

theorem lin_inj (a a1 b b1 s : Int) (hb : 0 ≤ b) (hb1 : 0 ≤ b1) (hbs : b < s) (hbs1 : b1 < s)
    (h : a * s + b = a1 * s + b1) : a = a1 ∧ b = b1 := by
  have ha : a = a1 := by
    rcases lt_trichotomy a a1 with hlt | heq | hgt
    · exfalso
      have : (a + 1) * s ≤ a1 * s := by
        apply mul_le_mul_of_nonneg_right <;> omega
      nlinarith
    · exact heq
    · exfalso
      have : (a1 + 1) * s ≤ a * s := by
        apply mul_le_mul_of_nonneg_right <;> omega
      nlinarith
  subst ha
  exact ⟨rfl, by omega⟩

theorem lin_bound (a b s n : Int) (ha : 0 ≤ a) (han : a < n) (hb : 0 ≤ b) (hbs : b < s) :
    0 ≤ a * s ∧ a * s + s ≤ n * s := by
  constructor
  · apply mul_nonneg <;> omega
  · have : (a + 1) * s ≤ n * s := by
      apply mul_le_mul_of_nonneg_right <;> omega
    linarith

theorem T_LAYOUT.major_range (L : T_LAYOUT) (w h x y : Int)
    (hx : 0 ≤ x) (hxw : x < w) (hy : 0 ≤ y) (hyh : y < h) :
    0 ≤ L.major w h x y ∧ L.major w h x y < L.strides w h := by
  cases L <;> simp only [T_LAYOUT.major, T_LAYOUT.strides, T_LAYOUT.alongX] <;>
    simp <;> omega

theorem T_LAYOUT.minor_range (L : T_LAYOUT) (w h x y : Int)
    (hx : 0 ≤ x) (hxw : x < w) (hy : 0 ≤ y) (hyh : y < h) :
    0 ≤ L.minor w h x y ∧ L.minor w h x y < L.stride w h := by
  cases L <;> simp only [T_LAYOUT.minor, T_LAYOUT.stride, T_LAYOUT.alongX] <;>
    simp <;> (try split_ifs) <;> omega

theorem T_LAYOUT.strides_mul_stride (L : T_LAYOUT) (w h : Int) :
    L.strides w h * L.stride w h = w * h := by
  cases L <;> simp [T_LAYOUT.strides, T_LAYOUT.stride, T_LAYOUT.alongX, mul_comm]

theorem T_LAYOUT.major_minor_inj (L : T_LAYOUT) (w h x y x1 y1 : Int)
    (hM : L.major w h x y = L.major w h x1 y1) (hm : L.minor w h x y = L.minor w h x1 y1) :
    x = x1 ∧ y = y1 := by
  cases L <;> simp only [T_LAYOUT.major, T_LAYOUT.minor] at hM hm <;>
    (try split_ifs at hm) <;> omega

theorem T_LAYOUT.Map_eq (L : T_LAYOUT) (w h x y : Nat)
    (hxw : x < w) (hyh : y < h) (hn : w * h ≤ 65536) :
    L.Map w h x y = (L.major w h x y * L.stride w h + L.minor w h x y).toNat := by
  have hwh : (w : Int) * (h : Int) ≤ 65536 := by exact_mod_cast hn
  have hhw : (h : Int) * (w : Int) ≤ 65536 := by rw [mul_comm]; exact hwh
  have b1 := lin_bound (y : Int) 0 (w : Int) (h : Int) (by omega) (by omega) (by omega) (by omega)
  have b2 := lin_bound ((w : Int) - 1 - x) 0 (h : Int) (w : Int)
    (by omega) (by omega) (by omega) (by omega)
  have b3 := lin_bound ((h : Int) - 1 - y) 0 (w : Int) (h : Int)
    (by omega) (by omega) (by omega) (by omega)
  have b4 := lin_bound (x : Int) 0 (h : Int) (w : Int) (by omega) (by omega) (by omega) (by omega)
  have hmx : ((u16 ((w : Int) - 1 - x) : Nat) : Int) = (w : Int) - 1 - x := by
    unfold u16; omega
  have hmy : ((u16 ((h : Int) - 1 - y) : Nat) : Int) = (h : Int) - 1 - y := by
    unfold u16; omega
  have i1 : ((u16 ((y : Int) * w) : Nat) : Int) = (y : Int) * w := by unfold u16; omega
  have i2 : ((u16 (((w : Int) - 1 - x) * h) : Nat) : Int) = ((w : Int) - 1 - x) * h := by
    unfold u16; omega
  have i3 : ((u16 (((h : Int) - 1 - y) * w) : Nat) : Int) = ((h : Int) - 1 - y) * w := by
    unfold u16; omega
  have i4 : ((u16 ((x : Int) * h) : Nat) : Int) = (x : Int) * h := by unfold u16; omega
  have p1 : u16 ((w : Int) - 1 - x) % 2 = 1 ↔ ((w : Int) - 1 - x) % 2 = 1 := by
    unfold u16; omega
  have p2 : u16 ((h : Int) - 1 - y) % 2 = 1 ↔ ((h : Int) - 1 - y) % 2 = 1 := by
    unfold u16; omega
  have p3 : x % 2 = 1 ↔ (x : Int) % 2 = 1 := by omega
  have p4 : y % 2 = 1 ↔ (y : Int) % 2 = 1 := by omega
  cases L <;>
    simp only [T_LAYOUT.Map, T_LAYOUT.major, T_LAYOUT.minor, T_LAYOUT.stride, T_LAYOUT.alongX,
      hmx, hmy, i1, i2, i3, i4, p1, p2, p3, p4, if_true, Bool.false_eq_true, if_false] <;>
    (try split_ifs) <;> (unfold u16; omega)

theorem T_LAYOUT.Map_lt (L : T_LAYOUT) (w h x y : Nat)
    (hxw : x < w) (hyh : y < h) (hn : w * h ≤ 65536) : L.Map w h x y < w * h := by
  rw [L.Map_eq w h x y hxw hyh hn]
  have hM := L.major_range w h x y (by omega) (by omega) (by omega) (by omega)
  have hm := L.minor_range w h x y (by omega) (by omega) (by omega) (by omega)
  have hb := lin_bound (L.major w h x y) (L.minor w h x y) (L.stride w h) (L.strides w h)
    hM.1 hM.2 hm.1 hm.2
  have hs := L.strides_mul_stride w h
  have : L.major w h x y * L.stride w h + L.minor w h x y < ((w * h : Nat) : Int) := by
    push_cast; omega
  omega

theorem T_LAYOUT.Map_inj (L : T_LAYOUT) (w h x y x1 y1 : Nat)
    (hxw : x < w) (hyh : y < h) (hxw1 : x1 < w) (hyh1 : y1 < h) (hn : w * h ≤ 65536)
    (heq : L.Map w h x y = L.Map w h x1 y1) : x = x1 ∧ y = y1 := by
  rw [L.Map_eq w h x y hxw hyh hn, L.Map_eq w h x1 y1 hxw1 hyh1 hn] at heq
  have hM := L.major_range w h x y (by omega) (by omega) (by omega) (by omega)
  have hm := L.minor_range w h x y (by omega) (by omega) (by omega) (by omega)
  have hM1 := L.major_range w h x1 y1 (by omega) (by omega) (by omega) (by omega)
  have hm1 := L.minor_range w h x1 y1 (by omega) (by omega) (by omega) (by omega)
  have hb := lin_bound (L.major w h x y) (L.minor w h x y) (L.stride w h) (L.strides w h)
    hM.1 hM.2 hm.1 hm.2
  have hb1 := lin_bound (L.major w h x1 y1) (L.minor w h x1 y1) (L.stride w h) (L.strides w h)
    hM1.1 hM1.2 hm1.1 hm1.2
  have hI : L.major w h x y * L.stride w h + L.minor w h x y
      = L.major w h x1 y1 * L.stride w h + L.minor w h x1 y1 := by omega
  have hl := lin_inj _ _ _ _ _ hm.1 hm1.1 hm.2 hm1.2 hI
  have := L.major_minor_inj w h x y x1 y1 hl.1 hl.2
  omega

theorem T_LAYOUT.Map_surj (L : T_LAYOUT) (w h : Nat) (hn : w * h ≤ 65536) (i : Nat)
    (hi : i < w * h) : ∃ x y : Nat, x < w ∧ y < h ∧ L.Map w h x y = i := by
  have key := Finset.surj_on_of_inj_on_of_card_le
    (s := Finset.range w ×ˢ Finset.range h) (t := Finset.range (w * h))
    (fun p _ => L.Map w h p.1 p.2)
    (by
      intro p hp
      simp only [Finset.mem_product, Finset.mem_range] at hp
      exact Finset.mem_range.mpr (L.Map_lt w h p.1 p.2 hp.1 hp.2 hn))
    (by
      intro p q hp hq heq
      simp only [Finset.mem_product, Finset.mem_range] at hp hq
      have := L.Map_inj w h p.1 p.2 q.1 q.2 hp.1 hp.2 hq.1 hq.2 hn heq
      exact Prod.ext this.1 this.2)
    (by simp)
    i (Finset.mem_range.mpr hi)
  obtain ⟨p, hp, hpe⟩ := key
  simp only [Finset.mem_product, Finset.mem_range] at hp
  exact ⟨p.1, p.2, hp.1, hp.2, hpe.symm⟩

/-- Within the matrix `map` hands the coordinates to `T_LAYOUT::Map` as they are. -/
theorem LedMatrixLayout.map_in_range (l : LedMatrixLayout) (x y : Nat)
    (hx : x < l.m_width) (hy : y < l.m_height)
    (hw : l.m_width ≤ 65536) (hh : l.m_height ≤ 65536) :
    l.map x y = l.layout.Map l.m_width l.m_height x y := by
  unfold LedMatrixLayout.map
  have hx1 : ¬ ((x : Int) ≥ (l.m_width : Int)) := by omega
  have hy1 : ¬ ((y : Int) ≥ (l.m_height : Int)) := by omega
  have hx2 : ¬ ((x : Int) < 0) := by omega
  have hy2 : ¬ ((y : Int) < 0) := by omega
  simp only [hx1, hy1, hx2, hy2, if_false]
  rw [u16_natCast x (by omega), u16_natCast y (by omega)]

theorem LedMatrixLayout.mapProbe_in_range (l : LedMatrixLayout) (x y : Nat)
    (hx : x < l.m_width) (hy : y < l.m_height)
    (hw : l.m_width ≤ 65536) (hh : l.m_height ≤ 65536) :
    l.mapProbe x y = l.layout.Map l.m_width l.m_height x y := by
  unfold LedMatrixLayout.mapProbe
  have hc : ¬ ((x : Int) < 0 ∨ (x : Int) ≥ (l.m_width : Int) ∨ (y : Int) < 0
      ∨ (y : Int) ≥ (l.m_height : Int)) := by omega
  rw [if_neg hc, u16_natCast x (by omega), u16_natCast y (by omega)]

theorem dims_le_of_mul_le (w h n : Nat) (hw : 1 ≤ w) (hh : 1 ≤ h) (hn : w * h ≤ n) :
    w ≤ n ∧ h ≤ n := by
  constructor
  · calc w = w * 1 := (Nat.mul_one w).symm
      _ ≤ w * h := Nat.mul_le_mul_left w hh
      _ ≤ n := hn
  · calc h = 1 * h := (Nat.one_mul h).symm
      _ ≤ w * h := Nat.mul_le_mul_right h hw
      _ ≤ n := hn

/-- For signed 16 bit coordinates `map` applies `T_LAYOUT::Map` to the clamped coordinates. -/
theorem LedMatrixLayout.map_clamped (l : LedMatrixLayout) (a b : Int)
    (hw : 1 ≤ l.m_width) (hw2 : l.m_width < 65536)
    (hh : 1 ≤ l.m_height) (hh2 : l.m_height < 65536)
    (ha : -32768 ≤ a) (ha2 : a ≤ 32767) (hb : -32768 ≤ b) (hb2 : b ≤ 32767) :
    l.map a b = l.layout.Map l.m_width l.m_height
      (clamp a 0 ((l.m_width : Int) - 1)).toNat
      (clamp b 0 ((l.m_height : Int) - 1)).toNat := by
  unfold LedMatrixLayout.map
  simp only
  rw [map_axis l.m_width a hw hw2 ha ha2, map_axis l.m_height b hh hh2 hb hb2]

/-! ## Layout selection -/

/-- What `createLayout` does: whatever its argument, the mapper installed afterwards is the
one of the member `m_topology`, and no other member changes. -/
theorem LedMatrix.createLayout_eq (s : LedMatrix) (topo : Topology) :
    LedMatrix.createLayout s topo =
      { s with m_topo := (layoutOfTopology s.m_topology).map
                  (fun L => ⟨L, s.m_width, s.m_height⟩) } := by
  obtain ⟨w, h, t, strip, tp⟩ := s
  cases tp <;>
    (simp only [LedMatrix.createLayout, layoutOfTopology]
     split <;> simp_all)

/-- C1, evaluated on the code: on a freshly constructed 32 x 8 matrix `setLayout` with
`TOPOLOGY_ROW_MAJOR` leaves `getLayout()` at `TOPOLOGY_COLUMN_MAJOR_ALTERNATING`, and the
installed mapper is still the column major alternating one: it sends (1, 0) to index 15,
where the row major mapper sends it to index 1. -/
theorem setLayout_row_major_not_installed :
    (LedMatrix.setLayout (LedMatrix.construct ⟨32, 8⟩ Strip.black)
        TOPOLOGY_ROW_MAJOR).getLayout = TOPOLOGY_COLUMN_MAJOR_ALTERNATING ∧
    (LedMatrix.setLayout (LedMatrix.construct ⟨32, 8⟩ Strip.black)
        TOPOLOGY_ROW_MAJOR).m_topo = some ⟨.ColumnMajorAlternatingLayout, 32, 8⟩ ∧
    (⟨.ColumnMajorAlternatingLayout, 32, 8⟩ : LedMatrixLayout).map 1 0 = 15 ∧
    (⟨.RowMajorLayout, 32, 8⟩ : LedMatrixLayout).map 1 0 = 1 := by
  refine ⟨rfl, rfl, ?_, ?_⟩ <;> decide

/-! ## Coordinate mapping -/

/-- C4: for width and height of at least 1 and signed 16 bit coordinates, `map(x, y)` is the
layout function applied to the coordinates clamped to `[0, width-1]` and `[0, height-1]`;
hence `map(x, y) = map(clamp x, clamp y)`, and on each axis by itself a value below 0 acts
as 0 and a value of at least the dimension acts as the dimension minus 1. -/
theorem map_eq_Map_clamp (l : LedMatrixLayout) (x y : Int)
    (hw : 1 ≤ l.m_width) (hw2 : l.m_width < 65536)
    (hh : 1 ≤ l.m_height) (hh2 : l.m_height < 65536)
    (hx : -32768 ≤ x ∧ x ≤ 32767) (hy : -32768 ≤ y ∧ y ≤ 32767) :
    l.map x y = l.layout.Map l.m_width l.m_height
        (clamp x 0 ((l.m_width : Int) - 1)).toNat (clamp y 0 ((l.m_height : Int) - 1)).toNat ∧
    l.map x y = l.map (clamp x 0 ((l.m_width : Int) - 1)) (clamp y 0 ((l.m_height : Int) - 1)) ∧
    (x < 0 → l.map x y = l.map 0 y) ∧
    (x ≥ (l.m_width : Int) → l.map x y = l.map ((l.m_width : Int) - 1) y) ∧
    (y < 0 → l.map x y = l.map x 0) ∧
    (y ≥ (l.m_height : Int) → l.map x y = l.map x ((l.m_height : Int) - 1)) := by
  have gen : ∀ a b : Int, -32768 ≤ a → a ≤ 32767 → -32768 ≤ b → b ≤ 32767 →
      l.map a b = l.layout.Map l.m_width l.m_height
        (clamp a 0 ((l.m_width : Int) - 1)).toNat
        (clamp b 0 ((l.m_height : Int) - 1)).toNat :=
    fun a b ha ha2 hb hb2 => l.map_clamped a b hw hw2 hh hh2 ha ha2 hb hb2
  have cx := clamp_range x l.m_width hw
  have cy := clamp_range y l.m_height hh
  have cx2 := clamp_le_int16 x l.m_width hx.2
  have cy2 := clamp_le_int16 y l.m_height hy.2
  refine ⟨gen x y hx.1 hx.2 hy.1 hy.2, ?_, ?_, ?_, ?_, ?_⟩
  · rw [gen x y hx.1 hx.2 hy.1 hy.2,
      gen _ _ (by omega) (by omega) (by omega) (by omega),
      clamp_idem x l.m_width hw, clamp_idem y l.m_height hh]
  · intro h0
    rw [gen x y hx.1 hx.2 hy.1 hy.2, gen 0 y (by omega) (by omega) hy.1 hy.2]
    have : clamp x 0 ((l.m_width : Int) - 1) = clamp 0 0 ((l.m_width : Int) - 1) := by
      unfold clamp; split_ifs <;> omega
    rw [this]
  · intro h0
    rw [gen x y hx.1 hx.2 hy.1 hy.2, gen _ y (by omega) (by omega) hy.1 hy.2]
    have : clamp x 0 ((l.m_width : Int) - 1)
        = clamp ((l.m_width : Int) - 1) 0 ((l.m_width : Int) - 1) := by
      unfold clamp; split_ifs <;> omega
    rw [this]
  · intro h0
    rw [gen x y hx.1 hx.2 hy.1 hy.2, gen x 0 hx.1 hx.2 (by omega) (by omega)]
    have : clamp y 0 ((l.m_height : Int) - 1) = clamp 0 0 ((l.m_height : Int) - 1) := by
      unfold clamp; split_ifs <;> omega
    rw [this]
  · intro h0
    rw [gen x y hx.1 hx.2 hy.1 hy.2, gen x _ hx.1 hx.2 (by omega) (by omega)]
    have : clamp y 0 ((l.m_height : Int) - 1)
        = clamp ((l.m_height : Int) - 1) 0 ((l.m_height : Int) - 1) := by
      unfold clamp; split_ifs <;> omega
    rw [this]

/-- Witness of C4 on the 32 x 8 row major matrix at (40, -3), which is clamped to (31, 0). -/
theorem map_eq_Map_clamp_witness :
    (⟨.RowMajorLayout, 32, 8⟩ : LedMatrixLayout).map 40 (-3) = 31 ∧
    (⟨.RowMajorLayout, 32, 8⟩ : LedMatrixLayout).map 40 (-3)
      = (⟨.RowMajorLayout, 32, 8⟩ : LedMatrixLayout).map
          (clamp 40 0 (((32 : Nat) : Int) - 1)) (clamp (-3) 0 (((8 : Nat) : Int) - 1)) :=
  ⟨by decide,
   (map_eq_Map_clamp ⟨.RowMajorLayout, 32, 8⟩ 40 (-3) (by decide) (by decide) (by decide)
      (by decide) (by decide) (by decide)).2.1⟩

/-- C5, counterexample: on a 257 x 256 row major matrix the distinct in-range coordinates
(1, 255) and (0, 0) both map to index 0, because 1 + 255 * 257 = 65536 does not fit the
`uint16_t` result. -/
theorem index_collision_257x256 :
    (⟨.RowMajorLayout, 257, 256⟩ : LedMatrixLayout).map 1 255 = 0 ∧
    (⟨.RowMajorLayout, 257, 256⟩ : LedMatrixLayout).map 0 0 = 0 := by
  constructor <;> decide

/-- C5, amended: for each of the sixteen layouts, width and height between 1 and 32768 (so
that every coordinate of the rectangle is an `int16_t`) and `width * height ≤ 65536`, `map`
is injective on the rectangle `[0, width) x [0, height)`, every index it returns, for any
signed 16 bit input, is below `width * height`, and every index below `width * height` is
the image of a coordinate of the rectangle. -/
theorem map_bijective_of_no_overflow (L : T_LAYOUT) (w h : Nat)
    (hw : 1 ≤ w) (hh : 1 ≤ h) (hw2 : w ≤ 32768) (hh2 : h ≤ 32768) (hn : w * h ≤ 65536) :
    (∀ x y x1 y1 : Int, 0 ≤ x → x < w → 0 ≤ y → y < h → 0 ≤ x1 → x1 < w → 0 ≤ y1 → y1 < h →
      (⟨L, w, h⟩ : LedMatrixLayout).map x y = (⟨L, w, h⟩ : LedMatrixLayout).map x1 y1 →
      x = x1 ∧ y = y1) ∧
    (∀ x y : Int, -32768 ≤ x → x ≤ 32767 → -32768 ≤ y → y ≤ 32767 →
      (⟨L, w, h⟩ : LedMatrixLayout).map x y < w * h) ∧
    (∀ i : Nat, i < w * h → ∃ x y : Int, 0 ≤ x ∧ x < w ∧ 0 ≤ y ∧ y < h ∧
      (⟨L, w, h⟩ : LedMatrixLayout).map x y = i) := by
  refine ⟨?_, ?_, ?_⟩
  · intro x y x1 y1 hx0 hx hy0 hy hx10 hx1 hy10 hy1 heq
    obtain ⟨a, rfl⟩ := Int.eq_ofNat_of_zero_le hx0
    obtain ⟨b, rfl⟩ := Int.eq_ofNat_of_zero_le hy0
    obtain ⟨a1, rfl⟩ := Int.eq_ofNat_of_zero_le hx10
    obtain ⟨b1, rfl⟩ := Int.eq_ofNat_of_zero_le hy10
    have ha : a < w := by omega
    have hb : b < h := by omega
    have ha1 : a1 < w := by omega
    have hb1 : b1 < h := by omega
    rw [LedMatrixLayout.map_in_range ⟨L, w, h⟩ a b ha hb (by simp; omega) (by simp; omega),
      LedMatrixLayout.map_in_range ⟨L, w, h⟩ a1 b1 ha1 hb1 (by simp; omega) (by simp; omega)]
      at heq
    have := L.Map_inj w h a b a1 b1 ha hb ha1 hb1 hn heq
    omega
  · intro x y hx hx2 hy hy2
    have hc := LedMatrixLayout.map_clamped ⟨L, w, h⟩ x y hw (by simp; omega) hh
      (by simp; omega) hx hx2 hy hy2
    rw [hc]
    have cx := clamp_range x w hw
    have cy := clamp_range y h hh
    exact L.Map_lt w h _ _ (by simp only []; omega) (by simp only []; omega) hn
  · intro i hi
    obtain ⟨a, b, ha, hb, hab⟩ := L.Map_surj w h hn i hi
    refine ⟨a, b, by omega, by omega, by omega, by omega, ?_⟩
    rw [LedMatrixLayout.map_in_range ⟨L, w, h⟩ a b ha hb (by simp; omega) (by simp; omega)]
    exact hab

/-- Witness of the amended C5 on the 32 x 8 column major alternating matrix. -/
theorem map_bijective_of_no_overflow_witness :
    (⟨.ColumnMajorAlternatingLayout, 32, 8⟩ : LedMatrixLayout).map 1 0 = 15 ∧
    (∀ x y : Int, -32768 ≤ x → x ≤ 32767 → -32768 ≤ y → y ≤ 32767 →
      (⟨.ColumnMajorAlternatingLayout, 32, 8⟩ : LedMatrixLayout).map x y < 32 * 8) :=
  ⟨by decide,
   (map_bijective_of_no_overflow .ColumnMajorAlternatingLayout 32 8 (by decide) (by decide)
      (by decide) (by decide) (by decide)).2.1⟩

/-- C6, counterexample: on a 256 x 256 row major matrix the value `mapProbe` returns outside
the matrix, 256 * 256 as `uint16_t`, is 0, the index of the in-range coordinate (0, 0). -/
theorem sentinel_collides_256x256 :
    (⟨.RowMajorLayout, 256, 256⟩ : LedMatrixLayout).mapProbe (-1) 0 = 0 ∧
    (⟨.RowMajorLayout, 256, 256⟩ : LedMatrixLayout).mapProbe 0 0 = 0 ∧
    (⟨.RowMajorLayout, 256, 256⟩ : LedMatrixLayout).map 0 0 = 0 := by
  refine ⟨?_, ?_, ?_⟩ <;> decide

/-- C6, amended: when `width * height ≤ 65535`, `mapProbe` returns `width * height` for every
coordinate outside the matrix, and for every coordinate inside the matrix `mapProbe` and
`map` return the same index, which is below `width * height` and so differs from that
value. -/
theorem mapProbe_sentinel (l : LedMatrixLayout) (hn : l.m_width * l.m_height ≤ 65535) :
    (∀ x y : Int, (x < 0 ∨ x ≥ (l.m_width : Int) ∨ y < 0 ∨ y ≥ (l.m_height : Int)) →
      l.mapProbe x y = l.m_width * l.m_height) ∧
    (∀ x y : Int, 0 ≤ x → x < l.m_width → 0 ≤ y → y < l.m_height →
      l.mapProbe x y = l.map x y ∧ l.mapProbe x y < l.m_width * l.m_height ∧
      l.mapProbe x y ≠ l.m_width * l.m_height) := by
  constructor
  · intro x y hout
    unfold LedMatrixLayout.mapProbe
    rw [if_pos hout]
    have : ((l.m_width : Int) * (l.m_height : Int)) = ((l.m_width * l.m_height : Nat) : Int) := by
      push_cast; rfl
    rw [this, u16_natCast _ (by omega)]
  · intro x y hx0 hx hy0 hy
    obtain ⟨a, rfl⟩ := Int.eq_ofNat_of_zero_le hx0
    obtain ⟨b, rfl⟩ := Int.eq_ofNat_of_zero_le hy0
    have ha : a < l.m_width := by omega
    have hb : b < l.m_height := by omega
    have hd := dims_le_of_mul_le l.m_width l.m_height 65535 (by omega) (by omega) hn
    have hp := l.mapProbe_in_range a b ha hb (by omega) (by omega)
    have hm := l.map_in_range a b ha hb (by omega) (by omega)
    have hlt := l.layout.Map_lt l.m_width l.m_height a b ha hb (by omega)
    refine ⟨by rw [hp, hm], by rw [hp]; exact hlt, by rw [hp]; omega⟩

/-- Witness of the amended C6 on the 32 x 8 row major matrix. -/
theorem mapProbe_sentinel_witness :
    (⟨.RowMajorLayout, 32, 8⟩ : LedMatrixLayout).mapProbe 32 0 = 256 ∧
    (∀ x y : Int, (x < 0 ∨ x ≥ ((32 : Nat) : Int) ∨ y < 0 ∨ y ≥ ((8 : Nat) : Int)) →
      (⟨.RowMajorLayout, 32, 8⟩ : LedMatrixLayout).mapProbe x y = 32 * 8) :=
  ⟨by decide, (mapProbe_sentinel ⟨.RowMajorLayout, 32, 8⟩ (by decide)).1⟩

/-! ## Drawing and dimming -/

/-- C7: with a mapper installed, `drawPixel` at a coordinate inside the matrix stores the
colour at the index the mapper's `map` assigns to the coordinate and leaves the stored
colour of every other index, the mapper and the topology identifier as they were. -/
theorem drawPixel_in_range (b : Board) (s : LedMatrix) (l : LedMatrixLayout) (x y : Int)
    (color : Nat) (hl : s.m_topo = some l)
    (hx0 : 0 ≤ x) (hx : x < b.width) (hy0 : 0 ≤ y) (hy : y < b.height) :
    (LedMatrix.drawPixel b s x y color).m_strip.GetPixelColor (l.map x y)
      = RgbColor.ofColor color ∧
    (∀ i : Nat, i ≠ l.map x y →
      (LedMatrix.drawPixel b s x y color).m_strip.GetPixelColor i
        = s.m_strip.GetPixelColor i) ∧
    (LedMatrix.drawPixel b s x y color).m_topo = s.m_topo ∧
    (LedMatrix.drawPixel b s x y color).m_topology = s.m_topology := by
  have hc : 0 ≤ x ∧ (b.width : Int) > x ∧ 0 ≤ y ∧ (b.height : Int) > y := ⟨hx0, hx, hy0, hy⟩
  have hd : LedMatrix.drawPixel b s x y color
      = { s with m_strip := s.m_strip.SetPixelColor (l.map x y) (RgbColor.ofColor color) } := by
    simp only [LedMatrix.drawPixel, hl, hc, and_self, if_true]
  rw [hd]
  refine ⟨?_, ?_, rfl, rfl⟩
  · simp [Strip.GetPixelColor, Strip.SetPixelColor]
  · intro i hi
    simp [Strip.GetPixelColor, Strip.SetPixelColor, hi]

/-- Witness of C7: red drawn at (1, 0) of a black, freshly constructed 32 x 8 matrix. -/
theorem drawPixel_in_range_witness :
    (LedMatrix.drawPixel ⟨32, 8⟩ (LedMatrix.construct ⟨32, 8⟩ Strip.black) 1 0
        0xFF0000).m_strip.GetPixelColor 15 = ⟨255, 0, 0⟩ ∧
    (LedMatrix.drawPixel ⟨32, 8⟩ (LedMatrix.construct ⟨32, 8⟩ Strip.black) 1 0
        0xFF0000).m_strip.GetPixelColor
        ((⟨.ColumnMajorAlternatingLayout, 32, 8⟩ : LedMatrixLayout).map 1 0)
      = RgbColor.ofColor 0xFF0000 :=
  ⟨by decide,
   (drawPixel_in_range ⟨32, 8⟩ (LedMatrix.construct ⟨32, 8⟩ Strip.black)
      ⟨.ColumnMajorAlternatingLayout, 32, 8⟩ 1 0 0xFF0000 rfl (by decide) (by decide)
      (by decide) (by decide)).1⟩

/-- C8: for a coordinate outside the matrix `drawPixel` and `dimPixel` return the state they
were given: no pixel of the driver, edge pixels included, changes, whatever the colour, the
ratio and the dim operation of the driver. -/
theorem drawPixel_dimPixel_out_of_range (Dim : RgbColor → Nat → RgbColor) (b : Board)
    (s : LedMatrix) (x y : Int) (color ratio : Nat)
    (hout : x < 0 ∨ x ≥ (b.width : Int) ∨ y < 0 ∨ y ≥ (b.height : Int)) :
    LedMatrix.drawPixel b s x y color = s ∧ LedMatrix.dimPixel Dim b s x y ratio = s := by
  have hc : ¬ (0 ≤ x ∧ (b.width : Int) > x ∧ 0 ≤ y ∧ (b.height : Int) > y) := by omega
  constructor
  · unfold LedMatrix.drawPixel
    cases s.m_topo <;> simp only [hc, if_false]
  · unfold LedMatrix.dimPixel
    cases s.m_topo <;> simp only [hc, if_false]

/-- Witness of C8: drawing and dimming at (32, 0) on a 32 x 8 matrix, one column to the
right of the last one. -/
theorem drawPixel_dimPixel_out_of_range_witness :
    LedMatrix.drawPixel ⟨32, 8⟩ (LedMatrix.construct ⟨32, 8⟩ Strip.black) 32 0 0xFFFFFF
      = LedMatrix.construct ⟨32, 8⟩ Strip.black ∧
    LedMatrix.dimPixel (fun c _ => c) ⟨32, 8⟩ (LedMatrix.construct ⟨32, 8⟩ Strip.black) 32 0 128
      = LedMatrix.construct ⟨32, 8⟩ Strip.black :=
  drawPixel_dimPixel_out_of_range (fun c _ => c) ⟨32, 8⟩
    (LedMatrix.construct ⟨32, 8⟩ Strip.black) 32 0 0xFFFFFF 128 (by decide)

/-! ## Inbound messages -/

/-- The calls of `forward`: one `setTopic`, no upload request, no file access. -/
theorem MqttApiTopicHandler.forward_calls (plugin : IPluginMaintenance) (topic : String)
    (jsonDoc : JsonVariant) :
    (MqttApiTopicHandler.forward plugin topic jsonDoc).filter Call.isSetTopic
      = [Call.setTopic topic jsonDoc.asObject] ∧
    (MqttApiTopicHandler.forward plugin topic jsonDoc).any Call.isUploadQuery = false ∧
    (MqttApiTopicHandler.forward plugin topic jsonDoc).any Call.isFileAccess = false := by
  unfold MqttApiTopicHandler.forward
  cases plugin.setTopic topic jsonDoc.asObject <;>
    simp [Call.isSetTopic, Call.isUploadQuery, Call.isFileAccess]

/-- C2, counterexample: the payload `{"fileName":"a.bmp","file":"AQID"}` with a plugin that
rejects the upload. No file is touched, but `setTopic` is called with the whole object. -/
theorem rejected_upload_reaches_setTopic :
    MqttApiTopicHandler.write (exampleEnvironment true true) (examplePlugin false) "/bitmap"
        payloadUpload
      = [Call.isUploadAccepted "/bitmap" "a.bmp",
         Call.logWarning "[%s][%u] Upload not supported.",
         Call.setTopic "/bitmap" (some docUpload)] := rfl

/-- C2, amended: when the payload decodes to an object with string-typed `fileName` and
`file` and the plugin rejects the upload, `write` asks the plugin once, logs, accesses no
file, and then calls `setTopic` exactly once, with the original topic and the decoded
object unchanged (`fileName` and `file` still in it). -/
theorem write_rejected_upload (env : Environment) (plugin : IPluginMaintenance)
    (topic : String) (payload : List Nat) (members : JsonObject)
    (hdoc : env.deserializeJson payload = some (.object members))
    (hname : ((JsonVariant.object members).getMember "fileName").isString = true)
    (hfile : ((JsonVariant.object members).getMember "file").isString = true)
    (hrej : (plugin.isUploadAccepted topic
      ((JsonVariant.object members).getMember "fileName").asString).1 = false) :
    MqttApiTopicHandler.write env plugin topic payload
      = Call.isUploadAccepted topic ((JsonVariant.object members).getMember "fileName").asString
        :: Call.logWarning "[%s][%u] Upload not supported."
        :: MqttApiTopicHandler.forward plugin topic (.object members) ∧
    (MqttApiTopicHandler.write env plugin topic payload).any Call.isFileAccess = false ∧
    (MqttApiTopicHandler.write env plugin topic payload).filter Call.isSetTopic
      = [Call.setTopic topic (some members)] := by
  have hw : MqttApiTopicHandler.write env plugin topic payload
      = Call.isUploadAccepted topic ((JsonVariant.object members).getMember "fileName").asString
        :: Call.logWarning "[%s][%u] Upload not supported."
        :: MqttApiTopicHandler.forward plugin topic (.object members) := by
    simp only [MqttApiTopicHandler.write, hdoc, hname, hfile, hrej, and_self, if_true]
  have hf := MqttApiTopicHandler.forward_calls plugin topic (.object members)
  rw [hw]
  refine ⟨rfl, ?_, ?_⟩
  · simp [List.any_cons, Call.isFileAccess, hf.2.2]
  · simp only [List.filter_cons, Call.isSetTopic, hf.1]
    simp [JsonVariant.asObject]

/-- Witness of the amended C2 on the payload `{"fileName":"a.bmp","file":"AQID"}`. -/
theorem write_rejected_upload_witness :
    (MqttApiTopicHandler.write (exampleEnvironment true true) (examplePlugin false) "/bitmap"
        payloadUpload).any Call.isFileAccess = false ∧
    (MqttApiTopicHandler.write (exampleEnvironment true true) (examplePlugin false) "/bitmap"
        payloadUpload).filter Call.isSetTopic = [Call.setTopic "/bitmap" (some docUpload)] :=
  (write_rejected_upload (exampleEnvironment true true) (examplePlugin false) "/bitmap"
    payloadUpload docUpload rfl rfl rfl rfl).2

/-- C3, counterexample: the payload `[1]` is well-formed JSON whose top level is not an
object; it is deserialized without error, and `setTopic` is called with a null object. -/
theorem array_payload_reaches_setTopic :
    MqttApiTopicHandler.write (exampleEnvironment true true) (examplePlugin true) "/text"
        payloadArray
      = [Call.setTopic "/text" none] := rfl

/-- C3, amended: for every payload that the deserializer refuses, `write` only logs a
warning: `setTopic` is not called, the plugin is not asked about an upload and no file is
accessed. -/
theorem write_invalid_payload (env : Environment) (plugin : IPluginMaintenance)
    (topic : String) (payload : List Nat) (herr : env.deserializeJson payload = none) :
    MqttApiTopicHandler.write env plugin topic payload
      = [Call.logWarning "Received invalid payload."] ∧
    (MqttApiTopicHandler.write env plugin topic payload).any Call.isSetTopic = false ∧
    (MqttApiTopicHandler.write env plugin topic payload).any Call.isUploadQuery = false ∧
    (MqttApiTopicHandler.write env plugin topic payload).any Call.isFileAccess = false := by
  have hw : MqttApiTopicHandler.write env plugin topic payload
      = [Call.logWarning "Received invalid payload."] := by
    simp only [MqttApiTopicHandler.write, herr]
  rw [hw]
  simp [Call.isSetTopic, Call.isUploadQuery, Call.isFileAccess]

/-- Witness of the amended C3 on the truncated payload `{"text"`. -/
theorem write_invalid_payload_witness :
    MqttApiTopicHandler.write (exampleEnvironment true true) (examplePlugin true) "/text"
        [123, 34, 116, 101, 120, 116, 34]
      = [Call.logWarning "Received invalid payload."] :=
  (write_invalid_payload (exampleEnvironment true true) (examplePlugin true) "/text"
    [123, 34, 116, 101, 120, 116, 34] rfl).1

/-- C10: when the payload decodes to an object that does not have both a string-typed
`fileName` and a string-typed `file`, `write` does nothing but forward: the plugin is not
asked about an upload, no file is accessed, and `setTopic` is called exactly once, with the
original topic and the decoded object unchanged. -/
theorem write_plain_object (env : Environment) (plugin : IPluginMaintenance)
    (topic : String) (payload : List Nat) (members : JsonObject)
    (hdoc : env.deserializeJson payload = some (.object members))
    (hplain : ¬ (((JsonVariant.object members).getMember "fileName").isString = true ∧
      ((JsonVariant.object members).getMember "file").isString = true)) :
    MqttApiTopicHandler.write env plugin topic payload
      = Call.setTopic topic (some members) ::
          (if plugin.setTopic topic (some members) = false then
            [Call.logWarning "Plugin %u rejected payload."] else []) ∧
    (MqttApiTopicHandler.write env plugin topic payload).filter Call.isSetTopic
      = [Call.setTopic topic (some members)] ∧
    (MqttApiTopicHandler.write env plugin topic payload).any Call.isUploadQuery = false ∧
    (MqttApiTopicHandler.write env plugin topic payload).any Call.isFileAccess = false := by
  have hw : MqttApiTopicHandler.write env plugin topic payload
      = MqttApiTopicHandler.forward plugin topic (.object members) := by
    simp only [MqttApiTopicHandler.write, hdoc]
    rw [if_neg hplain]
  have hf := MqttApiTopicHandler.forward_calls plugin topic (.object members)
  rw [hw]
  exact ⟨rfl, hf.1, hf.2.1, hf.2.2⟩

/-- Witness of C10: the payload `{"text":"hello"}` is forwarded unchanged. -/
theorem write_plain_object_witness :
    MqttApiTopicHandler.write (exampleEnvironment true true) (examplePlugin true) "/text"
        payloadText
      = [Call.setTopic "/text" (some [("text", .string "hello")])] :=
  (write_plain_object (exampleEnvironment true true) (examplePlugin true) "/text"
    payloadText docText rfl (by decide)).1

/-! ## Brightness -/

/-- C14, counterexample: an 8 x 8 matrix with a 4000 mA supply and 60 mA per LED. For
brightness 255 the quotient is 1020000 / 3840 = 265, the `uint8_t` that reaches the driver
is 9. -/
theorem setBrightness_wraps_on_8x8 :
    (LedMatrix.setBrightness ⟨8, 8⟩ ⟨4000, 60⟩ (LedMatrix.construct ⟨8, 8⟩ Strip.black)
        255).m_strip.brightness = 9 ∧
    (4000 * 255) / (60 * 8 * 8) = 265 := by
  constructor <;> decide

/-- C14, amended: for a brightness in [0, 255] and a board with `maxCurrentPerLed`, width and
height of at least 1, whenever the quotient
`(supplyCurrentMax * b) / (maxCurrentPerLed * width * height)` is at most 255, the value that
reaches the driver is that quotient; for brightness 0 it is 0. -/
theorem setBrightness_forwards_quotient (b : Board) (c : BoardCurrent) (s : LedMatrix)
    (brightness : Nat) (_hb : brightness ≤ 255) (_hc : 1 ≤ c.maxCurrentPerLed)
    (_hw : 1 ≤ b.width) (_hh : 1 ≤ b.height)
    (hq : (c.supplyCurrentMax * brightness) / (c.maxCurrentPerLed * b.width * b.height)
      ≤ 255) :
    (LedMatrix.setBrightness b c s brightness).m_strip.brightness
      = (c.supplyCurrentMax * brightness) / (c.maxCurrentPerLed * b.width * b.height) ∧
    (LedMatrix.setBrightness b c s 0).m_strip.brightness = 0 := by
  constructor
  · show ((c.supplyCurrentMax * brightness) / (c.maxCurrentPerLed * b.width * b.height)) % 256
      = _
    exact Nat.mod_eq_of_lt (by omega)
  · show ((c.supplyCurrentMax * 0) / (c.maxCurrentPerLed * b.width * b.height)) % 256 = 0
    simp

/-- Witness of the amended C14: 32 x 8 pixels, 3500 mA supply, 60 mA per LED, brightness 255:
the driver gets 892500 / 15360 = 58. -/
theorem setBrightness_forwards_quotient_witness :
    (LedMatrix.setBrightness ⟨32, 8⟩ ⟨3500, 60⟩ (LedMatrix.construct ⟨32, 8⟩ Strip.black)
        255).m_strip.brightness = 58 ∧
    (LedMatrix.setBrightness ⟨32, 8⟩ ⟨3500, 60⟩ (LedMatrix.construct ⟨32, 8⟩ Strip.black)
        0).m_strip.brightness = 0 :=
  ⟨by decide,
   (setBrightness_forwards_quotient ⟨32, 8⟩ ⟨3500, 60⟩ (LedMatrix.construct ⟨32, 8⟩ Strip.black)
      255 (by decide) (by decide) (by decide) (by decide) (by decide)).2⟩

/-- C15: for a board with `maxCurrentPerLed`, width and height of at least 1 and every
requested brightness `b`, the value `s` that reaches the driver is at most 255 and satisfies
`s * maxCurrentPerLed * width * height ≤ supplyCurrentMax * b`; for `b = 255` this is the
bound `supplyCurrentMax * 255`. -/
theorem setBrightness_within_supply (b : Board) (c : BoardCurrent) (s : LedMatrix)
    (brightness : Nat) (_hc : 1 ≤ c.maxCurrentPerLed) (_hw : 1 ≤ b.width)
    (_hh : 1 ≤ b.height) :
    (LedMatrix.setBrightness b c s brightness).m_strip.brightness ≤ 255 ∧
    (LedMatrix.setBrightness b c s brightness).m_strip.brightness
        * c.maxCurrentPerLed * b.width * b.height ≤ c.supplyCurrentMax * brightness ∧
    (LedMatrix.setBrightness b c s 255).m_strip.brightness
        * c.maxCurrentPerLed * b.width * b.height ≤ c.supplyCurrentMax * 255 := by
  have key : ∀ r : Nat,
      (LedMatrix.setBrightness b c s r).m_strip.brightness
        * c.maxCurrentPerLed * b.width * b.height ≤ c.supplyCurrentMax * r := by
    intro r
    show ((c.supplyCurrentMax * r) / (c.maxCurrentPerLed * b.width * b.height)) % 256
        * c.maxCurrentPerLed * b.width * b.height ≤ c.supplyCurrentMax * r
    have h1 : ((c.supplyCurrentMax * r) / (c.maxCurrentPerLed * b.width * b.height)) % 256
        ≤ (c.supplyCurrentMax * r) / (c.maxCurrentPerLed * b.width * b.height) :=
      Nat.mod_le _ _
    have h2 : (c.supplyCurrentMax * r) / (c.maxCurrentPerLed * b.width * b.height)
        * (c.maxCurrentPerLed * b.width * b.height) ≤ c.supplyCurrentMax * r :=
      Nat.div_mul_le_self _ _
    calc ((c.supplyCurrentMax * r) / (c.maxCurrentPerLed * b.width * b.height)) % 256
          * c.maxCurrentPerLed * b.width * b.height
        = ((c.supplyCurrentMax * r) / (c.maxCurrentPerLed * b.width * b.height)) % 256
          * (c.maxCurrentPerLed * b.width * b.height) := by ring
      _ ≤ (c.supplyCurrentMax * r) / (c.maxCurrentPerLed * b.width * b.height)
          * (c.maxCurrentPerLed * b.width * b.height) := Nat.mul_le_mul_right _ h1
      _ ≤ c.supplyCurrentMax * r := h2
  refine ⟨?_, key brightness, key 255⟩
  show ((c.supplyCurrentMax * brightness) / (c.maxCurrentPerLed * b.width * b.height)) % 256
    ≤ 255
  omega

/-- Witness of C15 on the 8 x 8 matrix with a 4000 mA supply and 60 mA per LED. -/
theorem setBrightness_within_supply_witness :
    (LedMatrix.setBrightness ⟨8, 8⟩ ⟨4000, 60⟩ (LedMatrix.construct ⟨8, 8⟩ Strip.black)
        255).m_strip.brightness ≤ 255 ∧
    (LedMatrix.setBrightness ⟨8, 8⟩ ⟨4000, 60⟩ (LedMatrix.construct ⟨8, 8⟩ Strip.black)
        255).m_strip.brightness * 60 * 8 * 8 ≤ 4000 * 255 :=
  ⟨(setBrightness_within_supply ⟨8, 8⟩ ⟨4000, 60⟩ (LedMatrix.construct ⟨8, 8⟩ Strip.black)
      255 (by decide) (by decide) (by decide)).1,
   by decide⟩

/-! ## Layout selection, continued -/

/-- C16: `setLayout` with a value of at least `TOPOLOGY_MAX` returns the state it was given:
the topology identifier, the installed mapper and the pixels of the driver are unchanged. -/
theorem setLayout_out_of_range (s : LedMatrix) (topo : Topology) (ht : topo ≥ TOPOLOGY_MAX) :
    LedMatrix.setLayout s topo = s := by
  unfold LedMatrix.setLayout
  rw [if_neg (Nat.not_lt.mpr ht)]

/-- Witness of C16: `setLayout(TOPOLOGY_MAX)` on a freshly constructed 32 x 8 matrix. -/
theorem setLayout_out_of_range_witness :
    LedMatrix.setLayout (LedMatrix.construct ⟨32, 8⟩ Strip.black) TOPOLOGY_MAX
      = LedMatrix.construct ⟨32, 8⟩ Strip.black :=
  setLayout_out_of_range (LedMatrix.construct ⟨32, 8⟩ Strip.black) TOPOLOGY_MAX (by decide)

/-- The state after the constructor and any `setLayout` calls: the topology identifier is
`TOPOLOGY_COLUMN_MAJOR_ALTERNATING` and its mapper is installed. -/
theorem LedMatrix.afterSetLayouts_eq (b : Board) (strip : Strip) (topos : List Topology) :
    LedMatrix.afterSetLayouts b strip topos =
      { m_width := b.width, m_height := b.height,
        m_topology := TOPOLOGY_COLUMN_MAJOR_ALTERNATING, m_strip := strip,
        m_topo := some ⟨.ColumnMajorAlternatingLayout, b.width, b.height⟩ } := by
  have hstep : ∀ (ts : List Topology) (s : LedMatrix),
      s = { m_width := b.width, m_height := b.height,
            m_topology := TOPOLOGY_COLUMN_MAJOR_ALTERNATING, m_strip := strip,
            m_topo := some ⟨.ColumnMajorAlternatingLayout, b.width, b.height⟩ } →
      ts.foldl LedMatrix.setLayout s = s := by
    intro ts
    induction ts with
    | nil => intro s _; rfl
    | cons t rest ih =>
        intro s hs
        have h1 : LedMatrix.setLayout s t = s := by
          unfold LedMatrix.setLayout
          split
          · rw [LedMatrix.createLayout_eq, hs]; rfl
          · rfl
        rw [List.foldl_cons, h1]
        exact ih s hs
  have h0 : LedMatrix.construct b strip =
      { m_width := b.width, m_height := b.height,
        m_topology := TOPOLOGY_COLUMN_MAJOR_ALTERNATING, m_strip := strip,
        m_topo := some ⟨.ColumnMajorAlternatingLayout, b.width, b.height⟩ } := by
    unfold LedMatrix.construct
    rw [LedMatrix.createLayout_eq]; rfl
  unfold LedMatrix.afterSetLayouts
  rw [hstep topos _ h0, h0]

/-- C18: in the state after the constructor and any sequence of `setLayout` calls, a mapper
is installed, and it is the mapper of the layout that belongs to the topology identifier
`getLayout()` returns, with the width and height of the board. -/
theorem mapper_installed_after_setLayouts (b : Board) (strip : Strip)
    (topos : List Topology) :
    ∃ L : T_LAYOUT,
      layoutOfTopology (LedMatrix.afterSetLayouts b strip topos).getLayout = some L ∧
      (LedMatrix.afterSetLayouts b strip topos).m_topo = some ⟨L, b.width, b.height⟩ := by
  rw [LedMatrix.afterSetLayouts_eq]
  exact ⟨.ColumnMajorAlternatingLayout, rfl, rfl⟩

/-! ## Dimming -/

/-- The driver's `Dim` with ratio 255 returns an 8 bit colour as it is, with ratio 0 it
returns black. -/
theorem RgbColor.Dim_ends (c : RgbColor) (hR : c.R < 256) (hG : c.G < 256) (hB : c.B < 256) :
    c.Dim 255 = c ∧ c.Dim 0 = ⟨0, 0, 0⟩ := by
  obtain ⟨r, g, bl⟩ := c
  simp only at hR hG hB
  constructor
  · simp only [RgbColor.Dim, u8, RgbColor.mk.injEq]
    refine ⟨?_, ?_, ?_⟩ <;> omega
  · simp only [RgbColor.Dim, u8, RgbColor.mk.injEq]
    refine ⟨?_, ?_, ?_⟩ <;> omega

/-- C17: with a mapper installed and a stored colour of 8 bit channels, `dimPixel` at a
coordinate inside the matrix with ratio 0 leaves the colour of that pixel as it is and with
ratio 255 makes it black; for every ratio the colour of every other pixel is unchanged. -/
theorem dimPixel_ratio_0_and_255 (b : Board) (s : LedMatrix) (l : LedMatrixLayout)
    (x y : Int) (hl : s.m_topo = some l)
    (hx0 : 0 ≤ x) (hx : x < b.width) (hy0 : 0 ≤ y) (hy : y < b.height)
    (hR : (s.m_strip.GetPixelColor (l.map x y)).R < 256)
    (hG : (s.m_strip.GetPixelColor (l.map x y)).G < 256)
    (hB : (s.m_strip.GetPixelColor (l.map x y)).B < 256) :
    (LedMatrix.dimPixel RgbColor.Dim b s x y 0).m_strip.GetPixelColor (l.map x y)
      = s.m_strip.GetPixelColor (l.map x y) ∧
    (LedMatrix.dimPixel RgbColor.Dim b s x y 255).m_strip.GetPixelColor (l.map x y)
      = ⟨0, 0, 0⟩ ∧
    (∀ (ratio i : Nat), i ≠ l.map x y →
      (LedMatrix.dimPixel RgbColor.Dim b s x y ratio).m_strip.GetPixelColor i
        = s.m_strip.GetPixelColor i) := by
  have hc : 0 ≤ x ∧ (b.width : Int) > x ∧ 0 ≤ y ∧ (b.height : Int) > y := ⟨hx0, hx, hy0, hy⟩
  have hd : ∀ ratio : Nat, LedMatrix.dimPixel RgbColor.Dim b s x y ratio
      = { s with m_strip := (Strip.SetPixelColor s.m_strip (l.map x y)
            (RgbColor.Dim (s.m_strip.GetPixelColor (l.map x y)) (255 - ratio))) } := by
    intro ratio
    simp only [LedMatrix.dimPixel, hl, hc, and_self, if_true]
  have he := RgbColor.Dim_ends (s.m_strip.GetPixelColor (l.map x y)) hR hG hB
  refine ⟨?_, ?_, ?_⟩
  · rw [hd 0]
    simp only [Strip.GetPixelColor, Strip.SetPixelColor, if_true]
    exact he.1
  · rw [hd 255]
    simp only [Strip.GetPixelColor, Strip.SetPixelColor, if_true]
    exact he.2
  · intro ratio i hi
    rw [hd ratio]
    simp [Strip.GetPixelColor, Strip.SetPixelColor, hi]

/-- Witness of C17: a red pixel at (1, 0) of a 32 x 8 matrix is black after
`dimPixel(1, 0, 255)`. -/
theorem dimPixel_ratio_0_and_255_witness :
    (LedMatrix.dimPixel RgbColor.Dim ⟨32, 8⟩
        (LedMatrix.drawPixel ⟨32, 8⟩ (LedMatrix.construct ⟨32, 8⟩ Strip.black) 1 0 0xFF0000)
        1 0 255).m_strip.GetPixelColor
        ((⟨.ColumnMajorAlternatingLayout, 32, 8⟩ : LedMatrixLayout).map 1 0) = ⟨0, 0, 0⟩ ∧
    (LedMatrix.drawPixel ⟨32, 8⟩ (LedMatrix.construct ⟨32, 8⟩ Strip.black) 1 0
        0xFF0000).m_strip.GetPixelColor 15 = ⟨255, 0, 0⟩ :=
  ⟨(dimPixel_ratio_0_and_255 ⟨32, 8⟩
      (LedMatrix.drawPixel ⟨32, 8⟩ (LedMatrix.construct ⟨32, 8⟩ Strip.black) 1 0 0xFF0000)
      ⟨.ColumnMajorAlternatingLayout, 32, 8⟩ 1 0 rfl (by decide) (by decide) (by decide)
      (by decide) (by decide) (by decide) (by decide)).2.1,
   by decide⟩

/-! ## File transfer buffer -/

/-- C11, evaluated on the code: the payload `{"fileName":"a.bmp","file":"AQID"}`, accepted
with destination `/img/a.bmp`, with a file that can be opened. The decoder is given a buffer
of one byte for the three bytes 01 02 03; it writes beyond the end of that buffer, and the
bytes to be handed to the file would be read beyond it. From the call of the decoder on the
behaviour is undefined: the code determines no write of the bytes 01 02 03 to the file. -/
theorem write_upload_reads_beyond_buffer :
    MqttApiTopicHandler.write (exampleEnvironment true true) (examplePlugin true) "/bitmap"
        payloadUpload
      = [Call.isUploadAccepted "/bitmap" "a.bmp",
         Call.base64_decode_chars "AQID" 1,
         Call.undefinedBehaviour] ∧
    (MqttApiTopicHandler.write (exampleEnvironment true true) (examplePlugin true) "/bitmap"
        payloadUpload).filterMap Call.writtenBytes = [] := ⟨rfl, rfl⟩

/-- C19, evaluated on the code: the buffer has one byte whatever size is requested; for the
file string `AQID` the expected length is 3 and the decoder produces 3 bytes. -/
theorem decode_buffer_has_one_byte :
    (∀ size : Nat, MqttApiTopicHandler.decodeBufferBytes size = 1) ∧
    (exampleEnvironment true true).base64_decode_expected_len ("AQID".length) = 3 ∧
    ((exampleEnvironment true true).base64_decode_chars "AQID").length = 3 ∧
    (MqttApiTopicHandler.write (exampleEnvironment true true) (examplePlugin true) "/bitmap"
        payloadUpload).filterMap Call.decoderBufferSize = [1] :=
  ⟨fun _ => rfl, by decide, by decide, rfl⟩

/-! ## Subscriptions -/

theorem MqttApiTopicHandler.getBaseUriByUid_eq (uid : Nat) (hu : uid < 65536) :
    MqttApiTopicHandler.getBaseUriByUid uid = "/display/uid/" ++ toString uid := by
  unfold MqttApiTopicHandler.getBaseUriByUid
  rw [Nat.mod_eq_of_lt hu, String.empty_append]
  rfl

theorem MqttApiTopicHandler.getBaseUriByAlias_eq (aliasName : String) :
    MqttApiTopicHandler.getBaseUriByAlias aliasName = "/display/alias/" ++ aliasName := by
  unfold MqttApiTopicHandler.getBaseUriByAlias
  rw [String.empty_append]
  rfl

theorem MqttApiTopicHandler.getBaseUriByAlias_isEmpty (aliasName : String) :
    (MqttApiTopicHandler.getBaseUriByAlias aliasName).isEmpty = false := by
  rw [MqttApiTopicHandler.getBaseUriByAlias_eq]
  cases h : ("/display/alias/" ++ aliasName).isEmpty with
  | false => rfl
  | true =>
      exfalso
      have h1 := (String.isEmpty_iff _).mp h
      have h2 := congrArg String.length h1
      rw [String.length_append] at h2
      have h3 : "/display/alias/".length = 15 := by decide
      have h4 : "".length = 0 := by decide
      omega

/-- The alias base URI that `registerTopics` and `unregisterTopics` compute. -/
theorem MqttApiTopicHandler.aliasBase_cases (aliasName : String) :
    (aliasName = "" ∧
      (if aliasName.isEmpty = false then MqttApiTopicHandler.getBaseUriByAlias aliasName
        else "") = "") ∨
    (aliasName ≠ "" ∧
      (if aliasName.isEmpty = false then MqttApiTopicHandler.getBaseUriByAlias aliasName
        else "") = "/display/alias/" ++ aliasName) := by
  by_cases h : aliasName = ""
  · left
    refine ⟨h, ?_⟩
    have : aliasName.isEmpty = true := (String.isEmpty_iff _).mpr h
    simp [this]
  · right
    refine ⟨h, ?_⟩
    have : aliasName.isEmpty = false := by
      cases h1 : aliasName.isEmpty with
      | false => rfl
      | true => exact absurd ((String.isEmpty_iff _).mp h1) h
    simp [this, MqttApiTopicHandler.getBaseUriByAlias_eq]

theorem MqttApiTopicHandler.registerTopic_uris (mqttService : MqttService) (n : Nat)
    (baseUri : String) (plugin : IPluginMaintenance) (topic : String) :
    (MqttApiTopicHandler.registerTopic mqttService n baseUri (some plugin) topic).filterMap
      Call.subscribedUri = [baseUri ++ topic] := by
  unfold MqttApiTopicHandler.registerTopic
  simp only
  split <;> simp [Call.subscribedUri]

theorem MqttApiTopicHandler.registerTopicsLoop_uris (mqttService : MqttService)
    (plugin : IPluginMaintenance) (uid : Nat) (aliasName baseUriByAlias : String)
    (ha : (aliasName = "" ∧ baseUriByAlias = "") ∨
      (aliasName ≠ "" ∧ baseUriByAlias = "/display/alias/" ++ aliasName))
    (topics : List String) (n : Nat) :
    (MqttApiTopicHandler.registerTopicsLoop mqttService plugin
        ("/display/uid/" ++ toString uid) baseUriByAlias n topics).filterMap Call.subscribedUri
      = MqttApiTopicHandler.specTopicUris uid aliasName topics := by
  induction topics generalizing n with
  | nil => rfl
  | cons topic rest ih =>
      rcases ha with ⟨h1, h2⟩ | ⟨h1, h2⟩
      · have he : baseUriByAlias.isEmpty = true := by rw [h2]; rfl
        simp only [MqttApiTopicHandler.registerTopicsLoop, he, Bool.true_eq_false, if_false,
          List.filterMap_append, MqttApiTopicHandler.registerTopic_uris]
        rw [ih (n + 1)]
        simp [MqttApiTopicHandler.specTopicUris, h1]
      · have he : baseUriByAlias.isEmpty = false := by
          rw [h2, ← MqttApiTopicHandler.getBaseUriByAlias_eq]
          exact MqttApiTopicHandler.getBaseUriByAlias_isEmpty aliasName
        simp only [MqttApiTopicHandler.registerTopicsLoop, he, if_true,
          List.filterMap_append, MqttApiTopicHandler.registerTopic_uris]
        rw [ih (n + 2), h2]
        simp [MqttApiTopicHandler.specTopicUris, h1]

theorem MqttApiTopicHandler.unregisterTopicsLoop_uris (uid : Nat)
    (aliasName baseUriByAlias : String)
    (ha : (aliasName = "" ∧ baseUriByAlias = "") ∨
      (aliasName ≠ "" ∧ baseUriByAlias = "/display/alias/" ++ aliasName))
    (topics : List String) :
    (MqttApiTopicHandler.unregisterTopicsLoop
        ("/display/uid/" ++ toString uid) baseUriByAlias topics).filterMap Call.unsubscribedUri
      = MqttApiTopicHandler.specTopicUris uid aliasName topics := by
  induction topics with
  | nil => rfl
  | cons topic rest ih =>
      rcases ha with ⟨h1, h2⟩ | ⟨h1, h2⟩
      · have he : baseUriByAlias.isEmpty = true := by rw [h2]; rfl
        simp only [MqttApiTopicHandler.unregisterTopicsLoop, he, Bool.true_eq_false, if_false,
          List.filterMap_append, MqttApiTopicHandler.unregisterTopic]
        rw [ih]
        simp [MqttApiTopicHandler.specTopicUris, h1, Call.unsubscribedUri]
      · have he : baseUriByAlias.isEmpty = false := by
          rw [h2, ← MqttApiTopicHandler.getBaseUriByAlias_eq]
          exact MqttApiTopicHandler.getBaseUriByAlias_isEmpty aliasName
        simp only [MqttApiTopicHandler.unregisterTopicsLoop, he, if_true,
          List.filterMap_append, MqttApiTopicHandler.unregisterTopic]
        rw [ih, h2]
        simp [MqttApiTopicHandler.specTopicUris, h1, Call.unsubscribedUri]

theorem MqttApiTopicHandler.specTopicUris_length (uid : Nat) (aliasName : String)
    (topics : List String) :
    (MqttApiTopicHandler.specTopicUris uid aliasName topics).length
      = if aliasName = "" then topics.length else 2 * topics.length := by
  induction topics with
  | nil => simp [MqttApiTopicHandler.specTopicUris]
  | cons topic rest ih =>
      by_cases h : aliasName = ""
      · simp only [MqttApiTopicHandler.specTopicUris, h, if_true, List.length_cons] at ih ⊢
        omega
      · simp only [MqttApiTopicHandler.specTopicUris, h, if_false, List.length_cons] at ih ⊢
        omega

theorem MqttApiTopicHandler.registerTopics_uris (mqttService : MqttService)
    (plugin : IPluginMaintenance) (hu : plugin.getUID < 65536) :
    (MqttApiTopicHandler.registerTopics mqttService (some plugin)).filterMap Call.subscribedUri
      = MqttApiTopicHandler.specTopicUris plugin.getUID plugin.getAlias plugin.getTopics := by
  unfold MqttApiTopicHandler.registerTopics
  simp only
  by_cases ht : 0 < plugin.getTopics.length
  · rw [if_pos ht, MqttApiTopicHandler.getBaseUriByUid_eq _ hu]
    exact MqttApiTopicHandler.registerTopicsLoop_uris mqttService plugin plugin.getUID
      plugin.getAlias _ (MqttApiTopicHandler.aliasBase_cases plugin.getAlias)
      plugin.getTopics 0
  · rw [if_neg ht]
    have : plugin.getTopics = [] := List.eq_nil_of_length_eq_zero (by omega)
    rw [this]
    rfl

theorem MqttApiTopicHandler.unregisterTopics_uris (plugin : IPluginMaintenance)
    (hu : plugin.getUID < 65536) :
    (MqttApiTopicHandler.unregisterTopics (some plugin)).filterMap Call.unsubscribedUri
      = MqttApiTopicHandler.specTopicUris plugin.getUID plugin.getAlias plugin.getTopics := by
  unfold MqttApiTopicHandler.unregisterTopics
  simp only
  by_cases ht : 0 < plugin.getTopics.length
  · rw [if_pos ht, MqttApiTopicHandler.getBaseUriByUid_eq _ hu]
    exact MqttApiTopicHandler.unregisterTopicsLoop_uris plugin.getUID
      plugin.getAlias _ (MqttApiTopicHandler.aliasBase_cases plugin.getAlias)
      plugin.getTopics
  · rw [if_neg ht]
    have : plugin.getTopics = [] := List.eq_nil_of_length_eq_zero (by omega)
    rw [this]
    rfl

/-- C12: for a plugin with a 16 bit UID, `registerTopics` makes exactly the subscriptions of
the spec's list, in its order: for every declared topic `/display/uid/<uid><topic>` and, if
and only if the alias is not empty, after it `/display/alias/<alias><topic>`. These are
twice as many as topics with an alias and as many as topics without, whatever the MQTT
service answers to the single subscriptions. -/
theorem registerTopics_subscribes (mqttService : MqttService) (plugin : IPluginMaintenance)
    (hu : plugin.getUID < 65536) :
    (MqttApiTopicHandler.registerTopics mqttService (some plugin)).filterMap Call.subscribedUri
      = MqttApiTopicHandler.specTopicUris plugin.getUID plugin.getAlias plugin.getTopics ∧
    (plugin.getAlias ≠ "" →
      ((MqttApiTopicHandler.registerTopics mqttService (some plugin)).filterMap
        Call.subscribedUri).length = 2 * plugin.getTopics.length) ∧
    (plugin.getAlias = "" →
      ((MqttApiTopicHandler.registerTopics mqttService (some plugin)).filterMap
        Call.subscribedUri).length = plugin.getTopics.length) := by
  have h := MqttApiTopicHandler.registerTopics_uris mqttService plugin hu
  have hl := MqttApiTopicHandler.specTopicUris_length plugin.getUID plugin.getAlias
    plugin.getTopics
  refine ⟨h, ?_, ?_⟩
  · intro ha
    rw [h, hl, if_neg ha]
  · intro ha
    rw [h, hl, if_pos ha]

/-- Witness of C12: the plugin with UID 7, alias `lamp` and the topics `/text` and `/bitmap`,
with a service that refuses every second subscription. -/
theorem registerTopics_subscribes_witness :
    (MqttApiTopicHandler.registerTopics exampleMqttService
        (some (examplePlugin true))).filterMap Call.subscribedUri
      = ["/display/uid/7/text", "/display/alias/lamp/text",
         "/display/uid/7/bitmap", "/display/alias/lamp/bitmap"] ∧
    (MqttApiTopicHandler.registerTopics exampleMqttService
        (some examplePluginNoAlias)).filterMap Call.subscribedUri
      = ["/display/uid/7/text", "/display/uid/7/bitmap"] :=
  ⟨(registerTopics_subscribes exampleMqttService (examplePlugin true) (by decide)).1.trans
      (by decide),
   (registerTopics_subscribes exampleMqttService examplePluginNoAlias (by decide)).1.trans
      (by decide)⟩

/-- C13: for a plugin with a 16 bit UID, the URIs that `unregisterTopics` hands to
`unsubscribe` are, in the same order, the URIs that `registerTopics` hands to `subscribe`
for the same UID, alias and topics. -/
theorem unregisterTopics_mirrors_registerTopics (mqttService : MqttService)
    (plugin : IPluginMaintenance) (hu : plugin.getUID < 65536) :
    (MqttApiTopicHandler.unregisterTopics (some plugin)).filterMap Call.unsubscribedUri
      = (MqttApiTopicHandler.registerTopics mqttService (some plugin)).filterMap
          Call.subscribedUri := by
  rw [MqttApiTopicHandler.unregisterTopics_uris plugin hu,
    MqttApiTopicHandler.registerTopics_uris mqttService plugin hu]

/-- Witness of C13 on the plugin with UID 7, alias `lamp` and two topics. -/
theorem unregisterTopics_mirrors_registerTopics_witness :
    (MqttApiTopicHandler.unregisterTopics (some (examplePlugin true))).filterMap
        Call.unsubscribedUri
      = (MqttApiTopicHandler.registerTopics exampleMqttService
          (some (examplePlugin true))).filterMap Call.subscribedUri ∧
    (MqttApiTopicHandler.unregisterTopics (some (examplePlugin true))).filterMap
        Call.unsubscribedUri
      = ["/display/uid/7/text", "/display/alias/lamp/text",
         "/display/uid/7/bitmap", "/display/alias/lamp/bitmap"] :=
  ⟨unregisterTopics_mirrors_registerTopics exampleMqttService (examplePlugin true)
      (by decide),
   by decide⟩

/-- C20: `registerTopic` subscribes with a callback that captures the topic it was given.
Called with a URI that does not end with that topic the callback does nothing at all; it
makes a call only if the URI ends with the topic, and then it does what `write` does with
the captured topic. -/
theorem subscriptionCallback_checks_suffix (mqttService : MqttService) (env : Environment)
    (plugin : IPluginMaintenance) (n : Nat) (baseUri topic topicUri : String)
    (payload : List Nat) :
    Call.subscribe (baseUri ++ topic) topic
      ∈ MqttApiTopicHandler.registerTopic mqttService n baseUri (some plugin) topic ∧
    (MqttApiTopicHandler.endsWith topicUri topic = false →
      MqttApiTopicHandler.subscriptionCallback env plugin topic topicUri payload = []) ∧
    (MqttApiTopicHandler.subscriptionCallback env plugin topic topicUri payload ≠ [] →
      MqttApiTopicHandler.endsWith topicUri topic = true) ∧
    (MqttApiTopicHandler.endsWith topicUri topic = true →
      MqttApiTopicHandler.subscriptionCallback env plugin topic topicUri payload
        = MqttApiTopicHandler.write env plugin topic payload) := by
  refine ⟨?_, ?_, ?_, ?_⟩
  · unfold MqttApiTopicHandler.registerTopic
    simp only
    split <;> simp
  · intro h
    simp [MqttApiTopicHandler.subscriptionCallback, h]
  · intro h
    cases he : MqttApiTopicHandler.endsWith topicUri topic with
    | true => rfl
    | false =>
        exfalso
        apply h
        simp [MqttApiTopicHandler.subscriptionCallback, he]
  · intro h
    simp [MqttApiTopicHandler.subscriptionCallback, h]

/-- Witness of C20: the callback of the topic `/text` ignores a message delivered under
`/display/uid/7/text2` and handles one delivered under `/display/uid/7/text`. -/
theorem subscriptionCallback_checks_suffix_witness :
    MqttApiTopicHandler.subscriptionCallback (exampleEnvironment true true)
        (examplePlugin true) "/text" "/display/uid/7/text2" payloadText = [] ∧
    MqttApiTopicHandler.subscriptionCallback (exampleEnvironment true true)
        (examplePlugin true) "/text" "/display/uid/7/text" payloadText
      = [Call.setTopic "/text" (some [("text", .string "hello")])] :=
  ⟨(subscriptionCallback_checks_suffix exampleMqttService (exampleEnvironment true true)
      (examplePlugin true) 0 "/display/uid/7" "/text" "/display/uid/7/text2" payloadText).2.1
      (by decide),
   rfl⟩

/-! ## Reading a pixel -/

/-- For signed 16 bit coordinates `map` gives the same index for a coordinate and for the
clamped coordinate. -/
theorem LedMatrixLayout.map_of_clamp (l : LedMatrixLayout) (x y : Int)
    (hw : 1 ≤ l.m_width) (hw2 : l.m_width < 65536)
    (hh : 1 ≤ l.m_height) (hh2 : l.m_height < 65536)
    (hx : -32768 ≤ x) (hx2 : x ≤ 32767) (hy : -32768 ≤ y) (hy2 : y ≤ 32767) :
    l.map x y
      = l.map (clamp x 0 ((l.m_width : Int) - 1)) (clamp y 0 ((l.m_height : Int) - 1)) := by
  have cx := clamp_range x l.m_width hw
  have cy := clamp_range y l.m_height hh
  have cx2 := clamp_le_int16 x l.m_width hx2
  have cy2 := clamp_le_int16 y l.m_height hy2
  rw [l.map_clamped x y hw hw2 hh hh2 hx hx2 hy hy2,
    l.map_clamped _ _ hw hw2 hh hh2 (by omega) cx2 (by omega) cy2,
    clamp_idem x l.m_width hw, clamp_idem y l.m_height hh]

/-- C21: with a mapper installed, width and height of at least 1 and signed 16 bit
coordinates, `getColor(x, y)` is the colour the driver holds at index `map(x, y)`, also
outside the matrix; hence it equals `getColor` at the clamped coordinate, the nearest edge
pixel. -/
theorem getColor_reads_clamped_pixel (s : LedMatrix) (l : LedMatrixLayout) (x y : Int)
    (hl : s.m_topo = some l)
    (hw : 1 ≤ l.m_width) (hw2 : l.m_width < 65536)
    (hh : 1 ≤ l.m_height) (hh2 : l.m_height < 65536)
    (hx : -32768 ≤ x ∧ x ≤ 32767) (hy : -32768 ≤ y ∧ y ≤ 32767) :
    LedMatrix.getColor s x y = (s.m_strip.GetPixelColor (l.map x y)).toColor ∧
    LedMatrix.getColor s x y
      = LedMatrix.getColor s (clamp x 0 ((l.m_width : Int) - 1))
          (clamp y 0 ((l.m_height : Int) - 1)) := by
  have hg : ∀ a b : Int,
      LedMatrix.getColor s a b = (s.m_strip.GetPixelColor (l.map a b)).toColor := by
    intro a b
    simp only [LedMatrix.getColor, hl]
  refine ⟨hg x y, ?_⟩
  rw [hg x y, hg _ _, ← l.map_of_clamp x y hw hw2 hh hh2 hx.1 hx.2 hy.1 hy.2]

/-- Witness of C21: on a 32 x 8 matrix with the pixel (31, 0) drawn red, `getColor(40, -3)`
is red, the colour of (31, 0), and not black; `drawPixel(40, -3)` changes nothing. -/
theorem getColor_reads_clamped_pixel_witness :
    LedMatrix.getColor
        (LedMatrix.drawPixel ⟨32, 8⟩ (LedMatrix.construct ⟨32, 8⟩ Strip.black) 31 0 0xFF0000)
        40 (-3) = 0xFF0000 ∧
    LedMatrix.getColor
        (LedMatrix.drawPixel ⟨32, 8⟩ (LedMatrix.construct ⟨32, 8⟩ Strip.black) 31 0 0xFF0000)
        40 (-3)
      = LedMatrix.getColor
          (LedMatrix.drawPixel ⟨32, 8⟩ (LedMatrix.construct ⟨32, 8⟩ Strip.black) 31 0 0xFF0000)
          (clamp 40 0 (((32 : Nat) : Int) - 1)) (clamp (-3) 0 (((8 : Nat) : Int) - 1)) ∧
    LedMatrix.getColor
        (LedMatrix.drawPixel ⟨32, 8⟩ (LedMatrix.construct ⟨32, 8⟩ Strip.black) 40 (-3)
          0xFF0000) 40 (-3) = 0 :=
  ⟨by decide,
   (getColor_reads_clamped_pixel
      (LedMatrix.drawPixel ⟨32, 8⟩ (LedMatrix.construct ⟨32, 8⟩ Strip.black) 31 0 0xFF0000)
      ⟨.ColumnMajorAlternatingLayout, 32, 8⟩ 40 (-3) rfl (by decide) (by decide) (by decide)
      (by decide) (by decide) (by decide)).2,
   by decide⟩
